import Mathlib

/-!
# Verification of the hybrid query-parsing and resolution core

Shallow embedding of the interpretation-and-resolution core of an
air-quality question-answering system (`src/agents/query_parser.py`,
`src/agents/hybrid_parser.py`, `src/agents/instructlab_parser.py`,
`src/agents/location_resolver.py`, `src/graphs/pm_query_workflow.py`,
`src/training/comparison_logger.py`).

Modelling conventions:
* Python `float` confidences are embedded as `Rat`; every literal the
  code compares against (0.0, 0.1, 0.5, 0.7, 0.8, 0.85, 0.9, 0.95) is an
  exact decimal, and no comparison performed by the embedded code
  distinguishes binary floating point from rationals at these values.
* Fallible code paths (Python exceptions) are embedded as
  `Except String`; external collaborators (the location-search agent,
  the PM-data agent, the fine-tuned inference service) are parameters,
  so theorems quantify over every collaborator behaviour.
* Python's `re` module is embedded as a backtracking matcher with
  CPython's preference order (leftmost start, alternation tried left to
  right, greedy/lazy quantifiers); character classes are the ASCII
  fragments exercised by the repository's queries.
* JSON values are an inductive `Json`; numbers carry a `Rat` plus the
  number of decimal digits used when they are serialized, which matches
  `json.dumps` output for every numeral the code writes.
-/

set_option maxRecDepth 10000

deriving instance DecidableEq for Except

namespace AqiSpec

/-! ## Kernel-computable string primitives

The Python string methods the code uses (`lower`, `strip`, `split`,
`replace`, `startswith`, `int(...)`, `str.title`), re-implemented over
character lists by structural recursion so that every concrete witness
below evaluates inside the kernel.  All inputs of interest are ASCII,
where these agree with CPython. -/

namespace Py

def charLower (c : Char) : Char :=
  if 'A' ≤ c ∧ c ≤ 'Z' then Char.ofNat (c.toNat + 32) else c

def charUpper (c : Char) : Char :=
  if 'a' ≤ c ∧ c ≤ 'z' then Char.ofNat (c.toNat - 32) else c

/-- `s.lower()`. -/
def lower (s : String) : String := String.mk (s.toList.map charLower)

def isSpace (c : Char) : Bool :=
  c = ' ' || c = '\t' || c = '\n' || c = '\r' || c = '\x0b' || c = '\x0c'

def dropLeadingSpace : List Char → List Char
  | [] => []
  | c :: cs => if isSpace c then dropLeadingSpace cs else c :: cs

/-- `s.strip()`. -/
def strip (s : String) : String :=
  String.mk ((dropLeadingSpace ((dropLeadingSpace s.toList.reverse)).reverse))

/-- `s.startswith(p)`. -/
def startsWith (s p : String) : Bool := p.toList.isPrefixOf s.toList

/-- Split on a non-empty separator, Python `s.split(sep)`. -/
def splitOnAux (sep : List Char) : Nat → List Char → List Char →
    List (List Char)
  | 0, l, acc => [acc.reverse ++ l]
  | fuel + 1, l, acc =>
    if sep.isPrefixOf l ∧ sep ≠ [] then
      acc.reverse :: splitOnAux sep fuel (l.drop sep.length) []
    else
      match l with
      | [] => [acc.reverse]
      | c :: t => splitOnAux sep fuel t (c :: acc)

def splitOn (s sep : String) : List String :=
  ((splitOnAux sep.toList (s.toList.length + 1) s.toList []).map String.mk)

/-- Split on a character predicate, dropping nothing (Lean-style); used
through `pySplit` below which then drops empties like Python
`s.split()`. -/
def splitPredAux (p : Char → Bool) : List Char → List Char → List (List Char)
  | [], acc => [acc.reverse]
  | c :: t, acc =>
    if p c then acc.reverse :: splitPredAux p t []
    else splitPredAux p t (c :: acc)

def splitPred (s : String) (p : Char → Bool) : List String :=
  (splitPredAux p s.toList []).map String.mk

/-- `sep.join(xs)`. -/
def joinSep (sep : String) : List String → String
  | [] => ""
  | x :: rest => rest.foldl (fun acc y => acc ++ sep ++ y) x

/-- `s.replace(old, new)` for non-empty `old`. -/
def replace (s old new : String) : String :=
  joinSep new (splitOn s old)

/-- `int(s)` for an optionally signed digit string. -/
def digitsVal : List Char → Option Nat
  | [] => none
  | ds =>
    if ds.all (fun c => '0' ≤ c ∧ c ≤ '9') then
      some (ds.foldl (fun acc d => acc * 10 + (d.toNat - '0'.toNat)) 0)
    else none

def toInt? (s : String) : Option Int :=
  match s.toList with
  | '-' :: ds => (digitsVal ds).map (fun n => -(n : Int))
  | ds => (digitsVal ds).map (fun n => (n : Int))

/-- `str(n)` for a natural number. -/
def natRepr (n : Nat) : String :=
  let rec go : Nat → Nat → List Char → List Char
    | 0, _, acc => acc
    | fuel + 1, m, acc =>
      let d := Char.ofNat (m % 10 + '0'.toNat)
      if m < 10 then d :: acc else go fuel (m / 10) (d :: acc)
  if n = 0 then "0" else String.mk (go (n + 1) n [])

/-- `str(i)` for an integer. -/
def intRepr (i : Int) : String :=
  if i < 0 then "-" ++ natRepr i.natAbs else natRepr i.natAbs

end Py

/-! Kernel-computable arithmetic on `Rat`: Mathlib marks the `Rat`
field operations irreducible, which blocks `decide`, so the embedded
code computes through `mkRat`, `Rat.num` and `Rat.den` (order
comparisons on `Rat` reduce natively).  The lemmas certify that each
helper equals the ordinary field operation. -/
namespace Rq

def add (a b : Rat) : Rat := mkRat (a.num * b.den + b.num * a.den) (a.den * b.den)

def sub (a b : Rat) : Rat := mkRat (a.num * b.den - b.num * a.den) (a.den * b.den)

def habs (a : Rat) : Rat := if a < 0 then mkRat (-a.num) a.den else a

/-- `a * 10` (used to count decimal digits). -/
def mul10 (a : Rat) : Rat := mkRat (a.num * 10) a.den

end Rq

/-! ## JSON values, serialization and parsing

Mirrors the subset of Python's `json` module the repository uses:
`json.dumps(v)`, `json.dumps(v, indent=2)` and `json.loads`,
the latter failing (raising `JSONDecodeError`) on any input that is not
a complete JSON document. -/

inductive Json where
  | null : Json
  | bool (b : Bool) : Json
  | num (q : Rat) (decimals : Nat) : Json
  | str (s : String) : Json
  | arr (xs : List Json) : Json
  | obj (kvs : List (String × Json)) : Json

namespace Json

/-- Lookup of a key in a JSON object's association list (Python `dict.get`). -/
def lookup (key : String) : List (String × Json) → Option Json
  | [] => none
  | (k, v) :: rest => if k = key then some v else lookup key rest

/-- Serialize a string with the escapes `json.dumps` emits for the ASCII
strings this code writes. -/
def escapeChar (c : Char) : String :=
  if c = '"' then "\\\""
  else if c = '\\' then "\\\\"
  else if c = '\n' then "\\n"
  else if c = '\t' then "\\t"
  else if c = '\r' then "\\r"
  else String.singleton c

def escapeString (s : String) : String :=
  "\"" ++ String.join (s.toList.map escapeChar) ++ "\""

/-- Render a rational with a fixed number of decimal digits, the way
`json.dumps` prints the float literals the code produces (`0.0`,
`0.5`, `0.8`, `0.95`, ...). `decimals = 0` renders an integer. -/
def renderNum (q : Rat) (decimals : Nat) : String :=
  let scaled : Int := Int.fdiv (q.num * Int.ofNat (10 ^ decimals)) (Int.ofNat q.den)
  let sign := if scaled < 0 then "-" else ""
  let n := scaled.natAbs
  if decimals = 0 then
    sign ++ Py.natRepr n
  else
    let base := 10 ^ decimals
    sign ++ Py.natRepr (n / base) ++ "." ++
      (let frac := Py.natRepr (n % base)
       String.join (List.replicate (decimals - frac.length) "0") ++ frac)

/-- `json.dumps(v, indent=2)` when `indent? = some 2`, plain
`json.dumps(v)` when `indent? = none`.  `depth` is the current nesting
depth (Python starts at 0); `fuel` bounds the nesting depth and is
chosen far above any document this development serializes. -/
def dumpsF (indent? : Option Nat) : Nat → Nat → Json → String
  | 0, _, _ => ""
  | _ + 1, _, .null => "null"
  | _ + 1, _, .bool b => if b then "true" else "false"
  | _ + 1, _, .num q d => renderNum q d
  | _ + 1, _, .str s => escapeString s
  | _ + 1, _, .arr [] => "[]"
  | fuel + 1, depth, .arr (x :: xs) =>
      let items := (x :: xs).map (dumpsF indent? fuel (depth + 1))
      match indent? with
      | none => "[" ++ Py.joinSep ", " items ++ "]"
      | some w =>
          let pad := String.join (List.replicate ((depth + 1) * w) " ")
          let closePad := String.join (List.replicate (depth * w) " ")
          "[\n" ++ pad ++ Py.joinSep (",\n" ++ pad) items ++
            "\n" ++ closePad ++ "]"
  | _ + 1, _, .obj [] => "\x7b\x7d"
  | fuel + 1, depth, .obj (kv :: kvs) =>
      let items := (kv :: kvs).map
        (fun p => escapeString p.1 ++ ": " ++ dumpsF indent? fuel (depth + 1) p.2)
      match indent? with
      | none => "\x7b" ++ Py.joinSep ", " items ++ "\x7d"
      | some w =>
          let pad := String.join (List.replicate ((depth + 1) * w) " ")
          let closePad := String.join (List.replicate (depth * w) " ")
          "\x7b\n" ++ pad ++ Py.joinSep (",\n" ++ pad) items ++
            "\n" ++ closePad ++ "\x7d"

def dumps (indent? : Option Nat) (depth : Nat) (j : Json) : String :=
  dumpsF indent? 1000 depth j

/-- JSON whitespace skipped by `json.loads`. -/
def isWs (c : Char) : Bool :=
  c = ' ' || c = '\t' || c = '\n' || c = '\r'

def skipWs : List Char → List Char
  | [] => []
  | c :: cs => if isWs c then skipWs cs else c :: cs

def hexVal (c : Char) : Option Nat :=
  if '0' ≤ c ∧ c ≤ '9' then some (c.toNat - '0'.toNat)
  else if 'a' ≤ c ∧ c ≤ 'f' then some (c.toNat - 'a'.toNat + 10)
  else if 'A' ≤ c ∧ c ≤ 'F' then some (c.toNat - 'A'.toNat + 10)
  else none

/-- Body of a JSON string literal after the opening quote; returns the
decoded characters and the input after the closing quote. -/
def parseStringBody : Nat → List Char → Option (List Char × List Char)
  | 0, _ => none
  | _, [] => none
  | fuel + 1, c :: cs =>
    if c = '"' then some ([], cs)
    else if c = '\\' then
      match cs with
      | [] => none
      | e :: cs' =>
        let dec : Option (Char × List Char) :=
          if e = '"' then some ('"', cs')
          else if e = '\\' then some ('\\', cs')
          else if e = '/' then some ('/', cs')
          else if e = 'n' then some ('\n', cs')
          else if e = 't' then some ('\t', cs')
          else if e = 'r' then some ('\r', cs')
          else if e = 'b' then some (Char.ofNat 8, cs')
          else if e = 'f' then some (Char.ofNat 12, cs')
          else if e = 'u' then
            match cs' with
            | h1 :: h2 :: h3 :: h4 :: cs'' =>
              match hexVal h1, hexVal h2, hexVal h3, hexVal h4 with
              | some a, some b, some c, some d =>
                  some (Char.ofNat (((a * 16 + b) * 16 + c) * 16 + d), cs'')
              | _, _, _, _ => none
            | _ => none
          else none
        match dec with
        | some (d, rest) =>
          match parseStringBody fuel rest with
          | some (tl, rest') => some (d :: tl, rest')
          | none => none
        | none => none
    else
      match parseStringBody fuel cs with
      | some (tl, rest) => some (c :: tl, rest)
      | none => none

def isDigit (c : Char) : Bool := '0' ≤ c ∧ c ≤ '9'

def digitsToNat : List Char → Nat
  | [] => 0
  | ds => ds.foldl (fun acc d => acc * 10 + (d.toNat - '0'.toNat)) 0

/-- A JSON number without exponent part: `-?digits(.digits)?`.  The
exponent form is accepted by `json.loads` but never occurs in any
document this development evaluates, so it is not modelled. -/
def parseNumber (s : List Char) : Option (Json × List Char) :=
  let (neg, s1) := match s with
    | '-' :: rest => (true, rest)
    | _ => (false, s)
  let intDigits := s1.takeWhile isDigit
  let s2 := s1.drop intDigits.length
  if intDigits.isEmpty then none
  else
    match s2 with
    | '.' :: s3 =>
      let fracDigits := s3.takeWhile isDigit
      let s4 := s3.drop fracDigits.length
      if fracDigits.isEmpty then none
      else
        let d := fracDigits.length
        let m : Int := Int.ofNat (digitsToNat intDigits * 10 ^ d + digitsToNat fracDigits)
        some (.num (mkRat (if neg then -m else m) (10 ^ d)) d, s4)
    | _ =>
      let m : Int := Int.ofNat (digitsToNat intDigits)
      some (.num (mkRat (if neg then -m else m) 1) 0, s2)

/-- Array elements from the first element on, consuming the closing
bracket; the value parser is passed in, which keeps the recursion
structural on `fuel`. -/
def parseElemsF (pv : List Char → Option (Json × List Char)) :
    Nat → List Char → Option (List Json × List Char)
  | 0, _ => none
  | fuel + 1, s =>
    match pv s with
    | some (x, rest) =>
      match skipWs rest with
      | ',' :: rest' =>
        match parseElemsF pv fuel (skipWs rest') with
        | some (xs, rest'') => some (x :: xs, rest'')
        | none => none
      | ']' :: rest' => some ([x], rest')
      | _ => none
    | none => none

/-- Object members from the first key on, consuming the closing brace. -/
def parseMembersF (pv : List Char → Option (Json × List Char)) :
    Nat → List Char → Option (List (String × Json) × List Char)
  | 0, _ => none
  | fuel + 1, s =>
    match s with
    | '"' :: cs =>
      match parseStringBody (cs.length + 1) cs with
      | some (key, rest) =>
        match skipWs rest with
        | ':' :: rest' =>
          match pv (skipWs rest') with
          | some (v, rest'') =>
            match skipWs rest'' with
            | ',' :: rest3 =>
              match parseMembersF pv fuel (skipWs rest3) with
              | some (kvs, rest4) => some ((String.mk key, v) :: kvs, rest4)
              | none => none
            | '\x7d' :: rest3 => some ([(String.mk key, v)], rest3)
            | _ => none
          | none => none
        | _ => none
      | none => none
    | _ => none

/-- One JSON value starting at the head of the input (no leading
whitespace); returns the value and the unconsumed input. -/
def parseVal : Nat → List Char → Option (Json × List Char)
  | 0, _ => none
  | _, [] => none
  | fuel + 1, c :: cs =>
    if c = 'n' then
      match cs with
      | 'u' :: 'l' :: 'l' :: rest => some (.null, rest)
      | _ => none
    else if c = 't' then
      match cs with
      | 'r' :: 'u' :: 'e' :: rest => some (.bool true, rest)
      | _ => none
    else if c = 'f' then
      match cs with
      | 'a' :: 'l' :: 's' :: 'e' :: rest => some (.bool false, rest)
      | _ => none
    else if c = '"' then
      match parseStringBody (cs.length + 1) cs with
      | some (body, rest) => some (.str (String.mk body), rest)
      | none => none
    else if c = '[' then
      match skipWs cs with
      | ']' :: rest => some (.arr [], rest)
      | cs' =>
        match parseElemsF (parseVal fuel) (cs'.length + 1) cs' with
        | some (xs, rest) => some (.arr xs, rest)
        | none => none
    else if c = '{' then
      match skipWs cs with
      | '\x7d' :: rest => some (.obj [], rest)
      | cs' =>
        match parseMembersF (parseVal fuel) (cs'.length + 1) cs' with
        | some (kvs, rest) => some (.obj kvs, rest)
        | none => none
    else
      parseNumber (c :: cs)

/-- `json.loads`: parse a complete document, failing if anything but
whitespace follows the value (Python's "Extra data" error) or the
document is incomplete. -/
def loads (s : String) : Option Json :=
  match parseVal (s.length + 1) (skipWs s.toList) with
  | some (j, rest) => if (skipWs rest).isEmpty then some j else none
  | none => none

end Json

/-! ## A backtracking regular-expression matcher

Embeds the fragment of Python's `re` module the repository's patterns
use: literals, the classes `\w`, `\s`, `\d`, `[\w\s]` and `.`,
concatenation, alternation (tried left to right), greedy and lazy
`?`/`*`/`+`, numbered capturing groups and the end anchor `$`.
`search` scans start positions left to right and returns the first
position admitting a match, exactly like `re.search`.  The classes are
their ASCII meaning; every string the workload feeds them is ASCII. -/

namespace Re

/-- Character classes occurring in the repository's patterns. -/
inductive CCls where
  | word      -- `\w`
  | space     -- `\s`
  | wordspace -- `[\w\s]`
  | digit     -- `\d`
  | any       -- `.` (with `re.DOTALL`, or on newline-free input)

def isWordChar (c : Char) : Bool := c.isAlpha || c.isDigit || c = '_'

def isSpaceChar (c : Char) : Bool :=
  c = ' ' || c = '\t' || c = '\n' || c = '\r' || c = '\x0b' || c = '\x0c'

def CCls.sat : CCls → Char → Bool
  | .word, c => isWordChar c
  | .space, c => isSpaceChar c
  | .wordspace, c => isWordChar c || isSpaceChar c
  | .digit, c => c.isDigit
  | .any, _ => true

inductive RE where
  | eps : RE
  | lit (c : Char) : RE
  | cls (k : CCls) : RE
  | seq (a b : RE) : RE
  | alt (a b : RE) : RE
  | grp (i : Nat) (r : RE) : RE
  | rep (r : RE) (lo : Nat) (hi : Option Nat) (greedy : Bool) : RE
  | eos : RE

/-- Captured substrings by group number (last successful capture wins,
as in CPython). -/
abbrev Caps := List (Nat × List Char)

def setCap (i : Nat) (v : List Char) : Caps → Caps
  | [] => [(i, v)]
  | (j, w) :: rest => if j = i then (i, v) :: rest else (j, w) :: setCap i v rest

def getCap (i : Nat) (caps : Caps) : Option (List Char) :=
  match caps.find? (fun p => p.1 = i) with
  | some p => some p.2
  | none => none

/-- Backtracking matcher in continuation-passing style.  The
continuation receives the unconsumed input and the captures; trying
`alt` left first on top of the whole continuation reproduces CPython's
preference order.  `fuel` bounds the recursion depth and is chosen
large enough that it never runs out on the inputs evaluated here. -/
def mMatch : Nat → RE → List Char → Caps →
    (List Char → Caps → Option Caps) → Option Caps
  | 0, _, _, _, _ => none
  | _ + 1, .eps, s, caps, k => k s caps
  | _ + 1, .lit c, s, caps, k =>
    match s with
    | [] => none
    | c' :: rest => if c' = c then k rest caps else none
  | _ + 1, .cls cc, s, caps, k =>
    match s with
    | [] => none
    | c' :: rest => if cc.sat c' then k rest caps else none
  | _ + 1, .eos, s, caps, k =>
    match s with
    | [] => k [] caps
    | _ :: _ => none
  | fuel + 1, .seq a b, s, caps, k =>
    mMatch fuel a s caps (fun s' caps' => mMatch fuel b s' caps' k)
  | fuel + 1, .alt a b, s, caps, k =>
    match mMatch fuel a s caps k with
    | some r => some r
    | none => mMatch fuel b s caps k
  | fuel + 1, .grp i r, s, caps, k =>
    mMatch fuel r s caps (fun s' caps' =>
      k s' (setCap i (s.take (s.length - s'.length)) caps'))
  | fuel + 1, .rep r lo hi greedy, s, caps, k =>
    match lo with
    | lo' + 1 =>
      mMatch fuel r s caps (fun s' caps' =>
        mMatch fuel (.rep r lo' (hi.map Nat.pred) greedy) s' caps' k)
    | 0 =>
      match hi with
      | some 0 => k s caps
      | _ =>
        let once := fun (_ : Unit) =>
          mMatch fuel r s caps (fun s' caps' =>
            mMatch fuel (.rep r 0 (hi.map Nat.pred) greedy) s' caps' k)
        if greedy then
          match once () with
          | some res => some res
          | none => k s caps
        else
          match k s caps with
          | some res => some res
          | none => once ()

/-- One match attempt anchored at the current position: the whole match
is recorded as capture 0, so the caller can recover its extent. -/
def tryAt (r : RE) (rest : List Char) : Option Caps :=
  let fuel := 8 * rest.length + 800
  mMatch fuel r rest []
    (fun s' caps => some (setCap 0 (rest.take (rest.length - s'.length)) caps))

/-- `re.search`: the first start position (scanning left to right)
where the pattern matches; returns (start, matched length, captures). -/
def search (r : RE) (s : String) : Option (Nat × Nat × Caps) :=
  goFrom r s.toList 0
where
  goFrom (r : RE) (rest : List Char) (start : Nat) : Option (Nat × Nat × Caps) :=
    match tryAt r rest with
    | some caps =>
      match getCap 0 caps with
      | some m => some (start, m.length, caps)
      | none => some (start, 0, caps)
    | none =>
      match rest with
      | [] => none
      | _ :: tl => goFrom r tl (start + 1)

/-- `match.groups()` for a pattern with `n` capturing groups:
group `i+1`'s capture, or `none` where the group did not participate. -/
def groupsOf (n : Nat) (caps : Caps) : List (Option String) :=
  (List.range n).map (fun i => (getCap (i + 1) caps).map String.mk)

/-- Composition helpers used to transcribe the source's pattern
strings; `lits` is a literal string, `rseq` concatenation, `ralt` an
alternation tried left to right, `opt` a greedy `(?:...)?`. -/
def lits (s : String) : RE :=
  s.toList.foldr (fun c acc => RE.seq (RE.lit c) acc) RE.eps

def rseq (rs : List RE) : RE := rs.foldr RE.seq RE.eps

def ralt : List RE → RE
  | [] => RE.eps
  | [r] => r
  | r :: rest => RE.alt r (ralt rest)

def opt (r : RE) : RE := RE.alt r RE.eps

def wplus : RE := RE.rep (RE.cls .word) 1 none true        -- `\w+`
def wsLazy : RE := RE.rep (RE.cls .wordspace) 1 none false -- `[\w\s]+?`
def wsGreedy : RE := RE.rep (RE.cls .wordspace) 1 none true -- `[\w\s]+`
def dplus : RE := RE.rep (RE.cls .digit) 1 none true       -- `\d+`
def qmarkEnd : RE := RE.alt (RE.lit '?') RE.eos            -- `(?:\?|$)`

end Re

/-! ## The Pattern Parser (`src/agents/query_parser.py`)

`QueryParser` holds an ordered table of intents, each with an ordered
list of compiled patterns; `parse` lower-cases and strips the query,
returns the first intent/pattern (in declaration order) whose pattern
matches, and otherwise the `unknown`/0.0 fallback. -/

/-- The value types a parsed-entity dictionary holds: strings,
integers (`duration`), lists of location strings, and Python `None`. -/
inductive EntVal where
  | str (s : String) : EntVal
  | intv (n : Int) : EntVal
  | strList (l : List String) : EntVal
  | noneV : EntVal
deriving DecidableEq

def EntVal.truthy : EntVal → Bool
  | .str s => s ≠ ""
  | .intv n => n ≠ 0
  | .strList l => !l.isEmpty
  | .noneV => false

/-- `ParsedQuery` (a frozen dataclass in the source). -/
structure ParsedQuery where
  intent : String
  entities : List (String × EntVal)
  confidence : Rat
  raw_query : String
deriving DecidableEq

def entLookup (key : String) : List (String × EntVal) → Option EntVal
  | [] => none
  | (k, v) :: rest => if k = key then some v else entLookup key rest

def entHasKey (key : String) (ents : List (String × EntVal)) : Bool :=
  (entLookup key ents).isSome

/-- Python `"needle" in haystack` substring test. -/
def listContainsSub (h n : List Char) : Bool :=
  if n.isPrefixOf h then true
  else
    match h with
    | [] => false
    | _ :: t => listContainsSub t n

def strContains (hay needle : String) : Bool :=
  listContainsSub hay.toList needle.toList

/-- Python `int(s)` on a captured `\d+` group. -/
def pyInt (s : String) : Except String Int :=
  match Py.toInt? s with
  | some n => .ok n
  | none => .error "ValueError: invalid literal for int()"

namespace QueryParser

open Re

/-- `self.location_keywords = set()` — loaded from nowhere, always empty. -/
def locationKeywords : List String := []

/-- `self.metric_synonyms`, in insertion order. -/
def metricSynonyms : List (String × String) :=
  [("pm", "pm25"), ("pm2.5", "pm25"), ("pm25", "pm25"),
   ("aqi", "aqi"), ("air quality", "aqi"), ("air quality index", "aqi"),
   ("no2", "no2"), ("nitrogen", "no2"),
   ("so2", "so2"), ("sulfur", "so2"),
   ("ozone", "o3"), ("o3", "o3")]

def synLookup (key : String) : List (String × String) → Option String
  | [] => none
  | (k, v) :: rest => if k = key then some v else synLookup key rest

/-- `_normalize_metric`. -/
def normalizeMetric (m : String) : String :=
  let ml := Py.strip (Py.lower m)
  (synLookup ml metricSynonyms).getD ml

/-- `_normalize_time_unit`'s `unit_map`. -/
def unitMap : List (String × String) :=
  [("hour", "hours"), ("hours", "hours"), ("hr", "hours"), ("hrs", "hours"),
   ("day", "days"), ("days", "days"), ("d", "days"),
   ("week", "weeks"), ("weeks", "weeks"), ("wk", "weeks"), ("wks", "weeks"),
   ("month", "months"), ("months", "months"), ("mo", "months"),
   ("year", "years"), ("years", "years"), ("yr", "years"), ("yrs", "years")]

def normalizeTimeUnit (u : String) : String :=
  let ul := Py.strip (Py.lower u)
  (synLookup ul unitMap).getD ul

/-- `_extract_metric_from_query`: first synonym that is a substring of
the lower-cased query. -/
def extractMetricFromQuery (query : String) : Option String :=
  let ql := Py.lower query
  (metricSynonyms.find? (fun p => strContains ql p.1)).map Prod.snd

/-- Python `x or default` for an optional string result. -/
def pyOrStr (o : Option String) (d : String) : String :=
  match o with
  | some s => if s = "" then d else s
  | none => d

/-! ### The compiled pattern table

Each definition transcribes one regular expression from
`_compile_patterns`, with its capturing groups numbered as in the
source. -/

-- `(?:what(?:'s| is)|show me|tell me) (?:the )?(?:current |latest |present )?(\w+)(?: level| reading)? (?:in|at|for) ([\w\s]+?)(?:\?|$)`
def crPat1 : RE := rseq
  [ralt [rseq [lits "what", ralt [lits "'s", lits " is"]], lits "show me", lits "tell me"],
   RE.lit ' ', opt (lits "the "),
   opt (ralt [lits "current ", lits "latest ", lits "present "]),
   RE.grp 1 wplus, opt (ralt [lits " level", lits " reading"]),
   RE.lit ' ', ralt [lits "in", lits "at", lits "for"], RE.lit ' ',
   RE.grp 2 wsLazy, qmarkEnd]

-- `(\w+) in ([\w\s]+?)(?:\?|$)`
def crPat2 : RE := rseq
  [RE.grp 1 wplus, lits " in ", RE.grp 2 wsLazy, qmarkEnd]

-- `([\w\s]+?) (\w+) level`
def crPat3 : RE := rseq
  [RE.grp 1 wsLazy, RE.lit ' ', RE.grp 2 wplus, lits " level"]

-- `(?:show |display |get )?(\w+) (?:trend|history|pattern) (?:for |in )?([\w\s]+?) (?:for |over )?(?:the )?(?:last|past) (\d+) (\w+)`
def trPat1 : RE := rseq
  [opt (ralt [lits "show ", lits "display ", lits "get "]),
   RE.grp 1 wplus, RE.lit ' ',
   ralt [lits "trend", lits "history", lits "pattern"], RE.lit ' ',
   opt (ralt [lits "for ", lits "in "]), RE.grp 2 wsLazy, RE.lit ' ',
   opt (ralt [lits "for ", lits "over "]), opt (lits "the "),
   ralt [lits "last", lits "past"], RE.lit ' ',
   RE.grp 3 dplus, RE.lit ' ', RE.grp 4 wplus]

-- `([\w\s]+?) (\w+) (?:for |over )?(?:the )?(?:last|past) (\d+) (\w+)`
def trPat2 : RE := rseq
  [RE.grp 1 wsLazy, RE.lit ' ', RE.grp 2 wplus, RE.lit ' ',
   opt (ralt [lits "for ", lits "over "]), opt (lits "the "),
   ralt [lits "last", lits "past"], RE.lit ' ',
   RE.grp 3 dplus, RE.lit ' ', RE.grp 4 wplus]

-- `how (?:has |did )(\w+) (?:changed?|varied) in ([\w\s]+?) (?:over |in )?(?:the )?(?:last|past) (\d+) (\w+)`
def trPat3 : RE := rseq
  [lits "how ", ralt [lits "has ", lits "did "], RE.grp 1 wplus, RE.lit ' ',
   ralt [rseq [lits "change", opt (RE.lit 'd')], lits "varied"],
   lits " in ", RE.grp 2 wsLazy, RE.lit ' ',
   opt (ralt [lits "over ", lits "in "]), opt (lits "the "),
   ralt [lits "last", lits "past"], RE.lit ' ',
   RE.grp 3 dplus, RE.lit ' ', RE.grp 4 wplus]

-- `compare (\w+) (?:between |in |across )([\w\s]+?) (?:and|with|vs) ([\w\s]+)`
def cpPat1 : RE := rseq
  [lits "compare ", RE.grp 1 wplus, RE.lit ' ',
   ralt [lits "between ", lits "in ", lits "across "],
   RE.grp 2 wsLazy, RE.lit ' ', ralt [lits "and", lits "with", lits "vs"],
   RE.lit ' ', RE.grp 3 wsGreedy]

-- `([\w\s]+?) vs\.? ([\w\s]+?)(?: for)? (\w+)`
def cpPat2 : RE := rseq
  [RE.grp 1 wsLazy, lits " vs", opt (RE.lit '.'), RE.lit ' ',
   RE.grp 2 wsLazy, opt (lits " for"), RE.lit ' ', RE.grp 3 wplus]

-- `which (?:is |has )(?:better|worse|higher|lower)(?: \w+)? ([\w\s]+?) or ([\w\s]+)`
def cpPat3 : RE := rseq
  [lits "which ", ralt [lits "is ", lits "has "],
   ralt [lits "better", lits "worse", lits "higher", lits "lower"],
   opt (rseq [RE.lit ' ', wplus]), RE.lit ' ',
   RE.grp 1 wsLazy, lits " or ", RE.grp 2 wsGreedy]

-- `(?:what will|predict|forecast|expected) (\w+) (?:be |in |for )?([\w\s]+?) (?:tomorrow|today|next (\d+) (\w+))`
def fcPat1 : RE := rseq
  [ralt [lits "what will", lits "predict", lits "forecast", lits "expected"],
   RE.lit ' ', RE.grp 1 wplus, RE.lit ' ',
   opt (ralt [lits "be ", lits "in ", lits "for "]),
   RE.grp 2 wsLazy, RE.lit ' ',
   ralt [lits "tomorrow", lits "today",
         rseq [lits "next ", RE.grp 3 dplus, RE.lit ' ', RE.grp 4 wplus]]]

-- `([\w\s]+?) (\w+) forecast(?: for)? (?:next |coming )?(\d+)? ?(\w+)?`
def fcPat2 : RE := rseq
  [RE.grp 1 wsLazy, RE.lit ' ', RE.grp 2 wplus, lits " forecast",
   opt (lits " for"), RE.lit ' ',
   opt (ralt [lits "next ", lits "coming "]),
   opt (RE.grp 3 dplus), opt (RE.lit ' '), opt (RE.grp 4 wplus)]

-- `will (\w+) (?:increase|decrease|improve|worsen) in ([\w\s]+)`
def fcPat3 : RE := rseq
  [lits "will ", RE.grp 1 wplus, RE.lit ' ',
   ralt [lits "increase", lits "decrease", lits "improve", lits "worsen"],
   lits " in ", RE.grp 2 wsGreedy]

-- `(?:show |find |get )?(?:pollution |air quality )?hotspots? (?:in |for |around )?([\w\s]+)?`
def hsPat1 : RE := rseq
  [opt (ralt [lits "show ", lits "find ", lits "get "]),
   opt (ralt [lits "pollution ", lits "air quality "]),
   lits "hotspot", opt (RE.lit 's'), RE.lit ' ',
   opt (ralt [lits "in ", lits "for ", lits "around "]),
   opt (RE.grp 1 wsGreedy)]

-- `(?:most |least )polluted (?:areas?|locations?|places?) (?:in |around )?([\w\s]+)?`
def hsPat2 : RE := rseq
  [ralt [lits "most ", lits "least "], lits "polluted ",
   ralt [rseq [lits "area", opt (RE.lit 's')],
         rseq [lits "location", opt (RE.lit 's')],
         rseq [lits "place", opt (RE.lit 's')]],
   RE.lit ' ', opt (ralt [lits "in ", lits "around "]),
   opt (RE.grp 1 wsGreedy)]

-- `where (?:is |are )(?:the )?(?:worst|best) air quality (?:in |around )?([\w\s]+)?`
def hsPat3 : RE := rseq
  [lits "where ", ralt [lits "is ", lits "are "], opt (lits "the "),
   ralt [lits "worst", lits "best"], lits " air quality ",
   opt (ralt [lits "in ", lits "around "]), opt (RE.grp 1 wsGreedy)]

-- `(?:is |are )?([\w\s]+?) (?:safe|dangerous|hazardous|unhealthy)`
def alPat1 : RE := rseq
  [opt (ralt [lits "is ", lits "are "]), RE.grp 1 wsLazy, RE.lit ' ',
   ralt [lits "safe", lits "dangerous", lits "hazardous", lits "unhealthy"]]

-- `should I (?:go out|exercise|wear mask) in ([\w\s]+)`
-- (note the capital `I`: queries are lower-cased before searching)
def alPat2 : RE := rseq
  [lits "should I ", ralt [lits "go out", lits "exercise", lits "wear mask"],
   lits " in ", RE.grp 1 wsGreedy]

-- `health (?:advisory|alert|warning) (?:for |in )?([\w\s]+)`
def alPat3 : RE := rseq
  [lits "health ", ralt [lits "advisory", lits "alert", lits "warning"],
   RE.lit ' ', opt (ralt [lits "for ", lits "in "]), RE.grp 1 wsGreedy]

/-- `self.patterns`, in declaration order; the number stored with each
pattern is its capturing-group count (equal to the `expected_groups`
stored in the source, which the extraction code never reads — it uses
`len(match.groups())`). -/
def patterns : List (String × List (RE × Nat)) :=
  [("current_reading", [(crPat1, 2), (crPat2, 2), (crPat3, 2)]),
   ("trend", [(trPat1, 4), (trPat2, 4), (trPat3, 4)]),
   ("comparison", [(cpPat1, 3), (cpPat2, 3), (cpPat3, 2)]),
   ("forecast", [(fcPat1, 4), (fcPat2, 4), (fcPat3, 2)]),
   ("hotspot", [(hsPat1, 1), (hsPat2, 1), (hsPat3, 1)]),
   ("alert", [(alPat1, 1), (alPat2, 1), (alPat3, 1)])]

/-- `_extract_entities`, one branch per intent.  Accessing a group that
did not participate raises `AttributeError` in Python (`None.strip()`),
embedded as `Except.error`. -/
def extractEntities (intent : String) (groups : List (Option String))
    (matchString : String) : Except String (List (String × EntVal)) :=
  if intent = "current_reading" then
    if groups.length ≥ 2 then
      match groups.getD 0 none, groups.getD 1 none with
      | some g0, some g1 =>
        .ok [("metric", .str (normalizeMetric g0)), ("location", .str (Py.strip g1))]
      | _, _ => .error "AttributeError: NoneType has no attribute strip"
    else .ok []
  else if intent = "trend" then
    if groups.length ≥ 4 then
      match groups.getD 0 none, groups.getD 1 none,
            groups.getD 2 none, groups.getD 3 none with
      | some g0, some g1, some g2, some g3 => do
        let metric := if !(locationKeywords.contains (Py.strip g0))
          then normalizeMetric g0 else "pm25"
        let location := if !(metricSynonyms.any (fun p => p.1 = Py.strip g1))
          then Py.strip g1 else Py.strip g0
        let dur ← pyInt g2
        .ok [("metric", .str metric), ("location", .str location),
             ("duration", .intv dur), ("unit", .str (normalizeTimeUnit g3))]
      | _, _, _, _ => .error "AttributeError: NoneType has no attribute strip"
    else .ok []
  else if intent = "comparison" then
    if groups.length ≥ 2 then
      let locs := (List.range (min 3 groups.length)).filterMap
        (fun i => match groups.getD i none with
          | some s => if s ≠ "" then some (Py.strip s) else none
          | none => none)
      .ok [("locations", .strList locs),
           ("metric", .str (pyOrStr (extractMetricFromQuery matchString) "pm25"))]
    else .ok []
  else if intent = "forecast" then do
    let location : EntVal := match groups.getD 0 none with
      | some g0 => if g0 ≠ "" then .str (Py.strip g0) else .noneV
      | none => .noneV
    if decide (groups.length ≥ 3) &&
        (match groups.getD 2 none with
         | some s => s != ""
         | none => false) then
      match groups.getD 2 none with
      | some g2 => do
        let dur ← pyInt g2
        let unit ← if groups.length > 3 then
            match groups.getD 3 none with
            | some g3 => Except.ok (normalizeTimeUnit g3)
            | none => Except.error "AttributeError: NoneType has no attribute lower"
          else Except.ok "hours"
        .ok [("metric", .str "pm25"), ("location", location),
             ("duration", .intv dur), ("unit", .str unit)]
      | none => .error "unreachable"
    else
      .ok [("metric", .str "pm25"), ("location", location),
           ("duration", .intv 24), ("unit", .str "hours")]
  else if intent = "hotspot" ∨ intent = "alert" then
    let location : EntVal := match groups.getD 0 none with
      | some g0 => if g0 ≠ "" then .str (Py.strip g0) else .noneV
      | none => .noneV
    .ok [("location", location), ("metric", .str "pm25")]
  else .ok []

/-- `_calculate_confidence`. -/
def calculateConfidence (query intent : String)
    (entities : List (String × EntVal)) : Rat :=
  let _ := query  -- the source takes the query but never reads it
  let truthyAt := fun k => match entLookup k entities with
    | some v => v.truthy
    | none => false
  if intent == "current_reading" && truthyAt "location" && truthyAt "metric" then
    mkRat 95 100
  else if intent == "trend" && entHasKey "location" entities &&
      entHasKey "duration" entities && entHasKey "unit" entities then
    mkRat 9 10
  else if intent == "comparison" &&
      (match entLookup "locations" entities with
       | some (.strList l) => decide (l.length ≥ 2)
       | _ => false) then
    mkRat 9 10
  else mkRat 8 10

/-- First pattern of an intent's list that matches, with its groups. -/
def scanPats (ql : String) : List (RE × Nat) → Option (List (Option String))
  | [] => none
  | (r, n) :: rest =>
    match Re.search r ql with
    | some (_, _, caps) => some (Re.groupsOf n caps)
    | none => scanPats ql rest

/-- The intent loop of `parse`; falls through to the
`unknown`/0.0 result when no pattern matches. -/
def scanTable (ql raw : String) :
    List (String × List (RE × Nat)) → Except String ParsedQuery
  | [] => .ok ⟨"unknown", [("query", .str raw)], 0, raw⟩
  | (intent, pats) :: rest =>
    match scanPats ql pats with
    | some groups => do
      let ents ← extractEntities intent groups ql
      .ok ⟨intent, ents, calculateConfidence ql intent ents, raw⟩
    | none => scanTable ql raw rest

/-- `QueryParser.parse`. -/
def parse (query : String) : Except String ParsedQuery :=
  scanTable (Py.strip (Py.lower query)) query patterns

end QueryParser

/-! ## The Hybrid Orchestrator (`src/agents/hybrid_parser.py`)

`HybridQueryParser.parse` always runs the Pattern Parser; in shadow
mode it also awaits the fine-tuned parser inside a `try` block whose
result feeds only the comparison recorder, in production mode it
returns the Pattern Parser's result when its confidence is at least
0.85 and otherwise awaits and returns the fine-tuned result.  The
fine-tuned parser and the wall clock are parameters. -/

namespace HybridParser

/-- Number of decimal digits `json.dumps` prints for the exact-decimal
confidences this code produces (floats always print at least one). -/
def ratDecimals (c : Rat) : Nat :=
  if (Rq.mul10 c).den = 1 then 1
  else if (Rq.mul10 (Rq.mul10 c)).den = 1 then 2
  else if (Rq.mul10 (Rq.mul10 (Rq.mul10 c))).den = 1 then 3
  else 6

def confJson (c : Rat) : Json := .num c (ratDecimals c)

def entValJson : EntVal → Json
  | .str s => .str s
  | .intv n => .num (mkRat n 1) 0
  | .strList l => .arr (l.map Json.str)
  | .noneV => .null

def entitiesJson (ents : List (String × EntVal)) : Json :=
  .obj (ents.map (fun p => (p.1, entValJson p.2)))

/-- Python `set(a) = set(b)` on key lists (dict keys are unique). -/
def keySetEq (a b : List String) : Bool :=
  a.all (fun k => b.contains k) && b.all (fun k => a.contains k)

/-- `_analyze_differences`.  The three key-difference lists keep the
keys' original dictionary order (Python materialises them from hash
sets, whose order is unspecified; no property here depends on it). -/
def analyzeDifferences (r l : ParsedQuery) : Json :=
  let rkeys := r.entities.map Prod.fst
  let lkeys := l.entities.map Prod.fst
  let intentPart : List (String × Json) :=
    if r.intent ≠ l.intent then
      [("intent", .obj [("regex", .str r.intent), ("llm", .str l.intent)])]
    else []
  let entityPart : List (String × Json) :=
    if !(keySetEq rkeys lkeys) then
      [("entities", .obj
        [("regex_only", .arr ((rkeys.filter (fun k => !(lkeys.contains k))).map Json.str)),
         ("llm_only", .arr ((lkeys.filter (fun k => !(rkeys.contains k))).map Json.str)),
         ("common", .arr ((rkeys.filter (fun k => lkeys.contains k)).map Json.str))])]
    else []
  let confPart : List (String × Json) :=
    if Rq.habs (Rq.sub r.confidence l.confidence) > mkRat 1 10 then
      [("confidence_diff", confJson (Rq.habs (Rq.sub r.confidence l.confidence)))]
    else []
  .obj (intentPart ++ entityPart ++ confPart)

/-- `_is_llm_better`. -/
def isLlmBetter (r l : ParsedQuery) : Bool :=
  if l.confidence > Rq.add r.confidence (mkRat 1 10) then true
  else if r.confidence < mkRat 7 10 && l.entities.length > r.entities.length then true
  else if r.intent == "unknown" && l.intent != "unknown" then true
  else false

/-- The comparison dictionary `_log_comparison` builds, in insertion
order. -/
def mkComparison (now query : String) (r l : ParsedQuery) : Json :=
  .obj [("timestamp", .str now),
        ("query", .str query),
        ("regex_result", .obj
          [("intent", .str r.intent),
           ("entities", entitiesJson r.entities),
           ("confidence", confJson r.confidence)]),
        ("llm_result", .obj
          [("intent", .str l.intent),
           ("entities", entitiesJson l.entities),
           ("confidence", confJson l.confidence)]),
        ("differences", analyzeDifferences r l),
        ("llm_better", .bool (isLlmBetter r l))]

/-- The in-memory buffer update of `_log_comparison`: append, then keep
only the last 100 (`self.comparison_log = self.comparison_log[-100:]`
when the length exceeds 100). -/
def bufferStep (log : List Json) (c : Json) : List Json :=
  let l := log ++ [c]
  if l.length > 100 then l.drop (l.length - 100) else l

/-- One durable log write: the logging formatter's prefix
(`%(asctime)s - %(name)s - %(levelname)s - %(message)s`) followed by
`json.dumps(comparison, indent=2)` and the handler's terminator. -/
def logLine (asc : String) (c : Json) : String :=
  asc ++ " - parsing_comparisons - INFO - " ++ Json.dumps (some 2) 0 c ++ "\n"

/-- Recorder state: the bounded in-memory buffer and the sequence of
durable log writes. -/
structure LogState where
  mem : List Json
  file : List String

/-- `_log_comparison`. -/
def logComparison (now query : String) (r l : ParsedQuery)
    (st : LogState) : LogState :=
  let c := mkComparison now query r l
  ⟨bufferStep st.mem c, st.file ++ [logLine now c]⟩

/-- `HybridQueryParser.parse`.  `llm` is the fine-tuned parser's
behaviour on this call: a value, or the exception it raises.  In shadow
mode that exception is caught (the `except` arm only notifies the
monitor); in production mode the low-confidence path awaits the call
outside any `try`, so an exception propagates. -/
def parse (llm : String → Except String ParsedQuery) (now : String)
    (shadowMode : Bool) (st : LogState) (query : String) :
    Except String (ParsedQuery × LogState) := do
  let regexResult ← QueryParser.parse query
  if shadowMode then
    match llm query with
    | .ok llmResult =>
      .ok (regexResult, logComparison now query regexResult llmResult st)
    | .error _ => .ok (regexResult, st)
  else
    if regexResult.confidence ≥ mkRat 85 100 then
      .ok (regexResult, st)
    else do
      let llmResult ← llm query
      .ok (llmResult, logComparison now query regexResult llmResult st)

end HybridParser

/-! ## The External-Model Parser (`src/agents/instructlab_parser.py`)

`FineTunedParser.parse` formats a prompt, awaits the transport call and
decodes its answer; every exception inside the `try` is converted to
the `unknown`/0.0 fallback.  The transport call's outcome (the string
`_call_finetuned_model` returns, or the exception it raises) is a
parameter.  Because the decoded JSON is dynamically typed, the result's
`intent`/`entities`/`confidence` fields are `Json` values, exactly as
the Python object holds whatever the document contained. -/

namespace FineTunedParser

/-- Result of `FineTunedParser.parse`: a `ParsedQuery` whose fields
hold whatever the decoded JSON supplied. -/
structure FTParsedQuery where
  intent : Json
  entities : Json
  confidence : Json
  raw_query : String

/-- `re.search(r'\{.*\}', response, re.DOTALL)`. -/
def bracesPattern : Re.RE :=
  Re.rseq [Re.RE.lit '{', Re.RE.rep (Re.RE.cls .any) 0 none true, Re.RE.lit '\x7d']

def strSub (s : String) (start len : Nat) : String :=
  String.mk ((s.toList.drop start).take len)

/-- `_manual_parse`: keyword fallback classifier. -/
def manualParse (response : String) : Json :=
  let rl := Py.lower response
  if strContains rl "current" || strContains rl "pm" then
    .obj [("intent", .str "current_reading"), ("entities", .obj []),
          ("confidence", .num (mkRat 6 10) 1)]
  else if strContains rl "trend" || strContains rl "history" then
    .obj [("intent", .str "trend"), ("entities", .obj []),
          ("confidence", .num (mkRat 6 10) 1)]
  else if strContains rl "compare" || strContains rl "vs" then
    .obj [("intent", .str "comparison"), ("entities", .obj []),
          ("confidence", .num (mkRat 6 10) 1)]
  else
    .obj [("intent", .str "unknown"), ("entities", .obj []),
          ("confidence", .num (mkRat 5 10) 1)]

/-- `_extract_json`: whole-document parse, then the first
brace-delimited substring, then the keyword fallback. -/
def extractJson (response : String) : Json :=
  match Json.loads response with
  | some j => j
  | none =>
    match Re.search bracesPattern response with
    | some (st, len, _) =>
      match Json.loads (strSub response st len) with
      | some j => j
      | none => manualParse response
    | none => manualParse response

/-- The `except` arm of `parse`. -/
def fallback (query msg : String) : FTParsedQuery :=
  ⟨.str "unknown", .obj [("query", .str query), ("error", .str msg)],
   .num 0 1, query⟩

/-- `FineTunedParser.parse` over the transport call's outcome.  A
non-dict decode makes `parsed.get` raise `AttributeError`, which the
same `try` converts to the fallback. -/
def parse (call : Except String String) (query : String) : FTParsedQuery :=
  match call with
  | .error e => fallback query e
  | .ok response =>
    match extractJson response with
    | .obj kvs =>
      ⟨(Json.lookup "intent" kvs).getD (.str "unknown"),
       (Json.lookup "entities" kvs).getD (.obj []),
       (Json.lookup "confidence" kvs).getD (.num (mkRat 7 10) 1),
       query⟩
    | _ => fallback query "AttributeError: object has no attribute get"

end FineTunedParser

/-! ## The Comparison Analyzer (`src/training/comparison_logger.py`)

`ParseComparisonAnalyzer.load_comparisons` iterates over the log file's
physical lines, skips empty lines and lines starting with `INFO`, cuts
each line at its first `{`, parses that suffix as JSON (silently
skipping the line on `JSONDecodeError`) and keeps records whose
timestamp passes the day-count cutoff.  `inWindow` abstracts the
`datetime.fromisoformat(ts) >= cutoff` test; a record without a string
timestamp raises (`KeyError`/`TypeError`), embedded as `Except.error`. -/

namespace ParseComparisonAnalyzer

/-- `line.find('{')`. -/
def braceIdx (line : String) : Option Nat :=
  line.toList.findIdx? (fun c => c = '{')

def strDropN (s : String) (n : Nat) : String :=
  String.mk (s.toList.drop n)

/-- The file's physical lines.  Python's file iteration keeps each
line's trailing newline; splitting it off instead changes neither the
`strip`/`startswith`/`find` tests nor `json.loads`' verdict, which
ignores trailing whitespace. -/
def fileLines (entries : List String) : List String :=
  Py.splitOn (String.join entries) "\n"

/-- `load_comparisons`, over the physical lines. -/
def loadComparisons (lines : List String) (inWindow : String → Bool) :
    Except String (List Json) :=
  match lines with
  | [] => .ok []
  | line :: rest => do
    let keep : Except String (Option Json) :=
      if Py.strip line ≠ "" && !(Py.startsWith line "INFO") then
        match braceIdx line with
        | some js =>
          match Json.loads (strDropN line js) with
          | some comp =>
            match comp with
            | .obj kvs =>
              match Json.lookup "timestamp" kvs with
              | some (.str ts) => .ok (if inWindow ts then some comp else none)
              | some _ => .error "TypeError: fromisoformat argument must be str"
              | none => .error "KeyError: timestamp"
            | _ => .error "TypeError: record is not a dict"
          | none => .ok none
        | none => .ok none
      else .ok none
    let kept ← keep
    let tl ← loadComparisons rest inWindow
    match kept with
    | some c => .ok (c :: tl)
    | none => .ok tl

end ParseComparisonAnalyzer

/-! ## The Location Resolver (`src/agents/location_resolver.py`)

`LocationResolverAgent.run` searches the GIS database, formats each
raw row, and decides whether the caller must disambiguate: more than
one candidate needs disambiguation unless the set of
(name, administrative level) pairs collapses to a single combination.
The database's outcome (rows, or the exception it raises) is a
parameter. -/

namespace LocationResolver

/-- A raw row as decoded from `gis.search_location_json`; absent keys
are `none` (Python `dict.get` default). -/
structure RawLoc where
  name : Option String := none
  location_name : Option String := none
  place_name : Option String := none
  area_name : Option String := none
  code : Option String := none
  level : Option String := none
  state_name : Option String := none
  district_name : Option String := none
  parent_name : Option String := none

/-- Python truthiness of an optional string field. -/
def optTruthy (o : Option String) : Bool :=
  match o with
  | some s => s ≠ ""
  | none => false

/-- A formatted candidate location, as built by `run`. -/
structure Location where
  code : String
  level : String
  name : String
  display_name : String
  state : String
  district : String
  parent : String
deriving DecidableEq

/-- `_get_location_name`: first truthy field among
`name`, `location_name`, `place_name`, `area_name`, then the code
fallback. -/
def getLocationName (loc : RawLoc) : String :=
  if optTruthy loc.name then loc.name.getD ""
  else if optTruthy loc.location_name then loc.location_name.getD ""
  else if optTruthy loc.place_name then loc.place_name.getD ""
  else if optTruthy loc.area_name then loc.area_name.getD ""
  else if optTruthy loc.code then "Location " ++ loc.code.getD ""
  else "Unknown Location"

/-- `_format_display_name`'s per-level emoji prefixes. -/
def levelEmoji (level : String) : String :=
  if level = "state" then "🏛️"
  else if level = "district" then "📍"
  else if level = "district_hq" then "🏙️"
  else if level = "city" then "🏙️"
  else if level = "sub_district" then "📌"
  else if level = "subdistrict" then "📌"
  else if level = "ward" then "🏘️"
  else if level = "village" then "🏡"
  else if level = "town" then "🏪"
  else "📍"

def optPart (o : Option String) : List String :=
  if optTruthy o then [o.getD ""] else []

/-- `_format_display_name`. -/
def formatDisplayName (loc : RawLoc) : String :=
  let level := Py.lower (loc.level.getD "")
  let name0 := getLocationName loc
  let name := if name0 = "" ∨ name0 = "Unknown Location" then
      (if optTruthy loc.code then "Area Code " ++ loc.code.getD "" else "Unknown Area")
    else name0
  let parts : List String :=
    if level = "ward" then
      [name] ++
        (if optTruthy loc.district_name then
          ["Ward in " ++ loc.district_name.getD ""] else []) ++
        optPart loc.state_name
    else if level = "sub_district" ∨ level = "subdistrict" then
      [name ++ " Sub-district"] ++ optPart loc.district_name ++ optPart loc.state_name
    else if level = "district" then
      [name ++ " District"] ++ optPart loc.state_name
    else if level = "district_hq" then
      [name ++ " City", "District HQ"] ++ optPart loc.state_name
    else if level = "city" then
      [name ++ " City"] ++ optPart loc.district_name ++ optPart loc.state_name
    else if level = "state" then
      [name ++ " State"]
    else
      let p0 := [name] ++ optPart loc.parent_name
      let p1 := p0 ++ (if optTruthy loc.district_name ∧
          !(p0.contains (loc.district_name.getD "")) then
          [loc.district_name.getD ""] else [])
      p1 ++ (if optTruthy loc.state_name ∧
          !(p1.contains (loc.state_name.getD "")) then
          [loc.state_name.getD ""] else [])
  levelEmoji level ++ " " ++ Py.joinSep " | " (parts.filter (fun s => s ≠ ""))

/-- One formatted entry of the `formatted_locations` list. -/
def formatLocation (loc : RawLoc) : Location :=
  { code := loc.code.getD ""
    level := loc.level.getD ""
    name := getLocationName loc
    display_name := formatDisplayName loc
    state := loc.state_name.getD ""
    district := loc.district_name.getD ""
    parent := loc.parent_name.getD "" }

/-- The result dictionary of `run` (the fields the workflow reads).
`error = none` models an absent `error` key. -/
structure LocResult where
  success : Bool
  locations : List Location
  needs_disambiguation : Bool
  error : Option String
deriving DecidableEq

/-- The distinct `(name, level)` combinations of the candidates —
`unique_combinations` in the source (a Python set; only its size is
read). -/
def uniquePairs (locs : List Location) : List (String × String) :=
  (locs.map (fun l => (l.name, l.level))).dedup

/-- `LocationResolverAgent.run` over the database call's outcome. -/
def run (db : Except String (List RawLoc)) (queryText : String) : LocResult :=
  let q := Py.strip queryText
  if q = "" then
    ⟨false, [], false, some "No location query provided"⟩
  else
    match db with
    | .error e => ⟨false, [], false, some e⟩
    | .ok raws =>
      if raws.isEmpty then
        ⟨false, [], false, some ("No locations found matching '" ++ q ++ "'")⟩
      else
        let formatted := raws.map formatLocation
        let needs0 := decide (formatted.length > 1)
        let needs := if needs0 then
            (if (uniquePairs formatted).length = 1 then false else true)
          else needs0
        ⟨true, formatted, needs, none⟩

end LocationResolver

/-! ## The Resolution Workflow (`src/graphs/pm_query_workflow.py`)

`PMQueryWorkflow.process_query` extracts a location term through a
four-method fallback chain, resolves it via the location agent,
suspends for disambiguation or auto-selects, fetches PM data and
formats a reply; `continue_with_selection` resumes a suspended state.
Both collaborators are parameters, so the theorems quantify over every
collaborator behaviour. -/

namespace PMQueryWorkflow

open LocationResolver (Location)

/-- The PM agent's result dictionary (the fields the workflow reads). -/
structure PMResult where
  success : Bool
  pm25_value : Option Rat
  error : Option String
  timestamp : Option String
  station_count : Option Nat
deriving DecidableEq

/-- What `process_query` passes to `pm_agent.run`. -/
structure PMReq where
  location_code : String
  location_level : String
  location_name : String

/-- `PMQueryState` (a `TypedDict` in the source). -/
structure PMQueryState where
  user_query : String
  location_search_term : String
  locations : List Location
  needs_disambiguation : Bool
  selected_location : Option Location
  pm_data : Option PMResult
  response : String
  error : Option String
  waiting_for_user : Bool

open Re

/-- The query cleaning at the top of `_extract_location_from_query`:
lower-case, strip, remove every `?`, `!` and `.`. -/
def cleanQuery (query : String) : String :=
  let q := Py.strip (Py.lower query)
  String.mk (q.toList.filter (fun c => c ≠ '?' ∧ c ≠ '!' ∧ c ≠ '.'))

def prepositions : List String :=
  [" in ", " at ", " for ", " of ", " near ", " around "]

/-- Method 1: the text after the last occurrence of the first matching
preposition, if longer than one character (otherwise the loop falls
through to the next preposition). -/
def method1 : List String → String → Option String
  | [], _ => none
  | prep :: rest, q =>
    if strContains q prep then
      let parts := Py.splitOn q prep
      let location := Py.strip ((parts.getLast?).getD "")
      if location ≠ "" ∧ location.length > 1 then some location
      else method1 rest q
    else method1 rest q

-- `(?:pm2\.5|pm25|pm 2\.5|pm|aqi|air quality)\s+(?:in|at|for|of)?\s*(.+)`
def pmPattern1 : RE := rseq
  [ralt [lits "pm2.5", lits "pm25", lits "pm 2.5", lits "pm", lits "aqi",
         lits "air quality"],
   RE.rep (RE.cls .space) 1 none true,
   opt (ralt [lits "in", lits "at", lits "for", lits "of"]),
   RE.rep (RE.cls .space) 0 none true,
   RE.grp 1 (RE.rep (RE.cls .any) 1 none true)]

-- `(?:current|latest|show|what is|what's the)\s+(?:pm2\.5|pm25|pm|aqi)\s+(?:in|at|for)?\s*(.+)`
def pmPattern2 : RE := rseq
  [ralt [lits "current", lits "latest", lits "show", lits "what is",
         lits "what's the"],
   RE.rep (RE.cls .space) 1 none true,
   ralt [lits "pm2.5", lits "pm25", lits "pm", lits "aqi"],
   RE.rep (RE.cls .space) 1 none true,
   opt (ralt [lits "in", lits "at", lits "for"]),
   RE.rep (RE.cls .space) 0 none true,
   RE.grp 1 (RE.rep (RE.cls .any) 1 none true)]

-- `(?:pm2\.5|pm25|pm|aqi)\s+(?:level|levels|reading|value)?\s*(?:in|at|for)?\s*(.+)`
def pmPattern3 : RE := rseq
  [ralt [lits "pm2.5", lits "pm25", lits "pm", lits "aqi"],
   RE.rep (RE.cls .space) 1 none true,
   opt (ralt [lits "level", lits "levels", lits "reading", lits "value"]),
   RE.rep (RE.cls .space) 0 none true,
   opt (ralt [lits "in", lits "at", lits "for"]),
   RE.rep (RE.cls .space) 0 none true,
   RE.grp 1 (RE.rep (RE.cls .any) 1 none true)]

def pmPatterns : List RE := [pmPattern1, pmPattern2, pmPattern3]

-- `\s+(level|levels|reading|value|now|today|current)$`
def trailingPattern : RE := rseq
  [RE.rep (RE.cls .space) 1 none true,
   RE.grp 1 (ralt [lits "level", lits "levels", lits "reading", lits "value",
                   lits "now", lits "today", lits "current"]),
   RE.eos]

/-- `re.sub(r'\s+(level|...)$', '', location)`: the `$`-anchored match
is unique, so substitution is truncation at the match's start. -/
def subTrailing (s : String) : String :=
  match Re.search trailingPattern s with
  | some (st, _, _) => String.mk (s.toList.take st)
  | none => s

/-- Method 2: the first pattern whose capture, stripped of trailing
time/qualifier words, is longer than one character. -/
def method2 : List RE → String → Option String
  | [], _ => none
  | p :: rest, q =>
    match Re.search p q with
    | some (_, _, caps) =>
      match Re.getCap 1 caps with
      | some g1 =>
        let location := subTrailing (Py.strip (String.mk g1))
        if location ≠ "" ∧ location.length > 1 then some location
        else method2 rest q
      | none => method2 rest q
    | none => method2 rest q

/-- Python `str.split()`: split on whitespace runs, dropping empties. -/
def pySplit (s : String) : List String :=
  (Py.splitPred s Py.isSpace).filter (fun w => w ≠ "")

/-- Method 3: a query not starting with an interrogative (anywhere in
its first 20 characters) whose last word contains a PM keyword. -/
def method3 (q : String) : Option String :=
  let first20 := String.mk (q.toList.take 20)
  if !(["what", "show", "tell", "get", "find", "how"].any
      (fun w => strContains first20 w)) then
    let words := pySplit q
    if words.length ≥ 2 then
      if ["pm", "pm2.5", "pm25", "aqi"].any
          (fun pm => strContains ((words.getLast?).getD "") pm) then
        some (Py.joinSep " " words.dropLast)
      else none
    else none
  else none

def commonWords : List String :=
  ["what", "is", "the", "show", "me", "tell", "get", "find",
   "current", "latest", "now", "today", "level", "levels",
   "reading", "value", "please", "can", "you"]

def pmWords : List String := ["pm2.5", "pm25", "pm", "aqi", "air", "quality"]

/-- Method 4: drop common query words and PM words, keep the rest. -/
def method4 (q : String) : Option String :=
  let words := pySplit q
  let filteredWords := words.filter
    (fun w => !(commonWords.contains w) ∧ w.length > 2)
  if !filteredWords.isEmpty then
    let locationWords := filteredWords.filter (fun w => !(pmWords.contains w))
    if !locationWords.isEmpty then
      some (Py.joinSep " " locationWords)
    else none
  else none

/-- `_extract_location_from_query`: the four-method fallback chain;
the empty string means extraction failed. -/
def extractLocationFromQuery (query : String) : String :=
  let q := cleanQuery query
  match method1 prepositions q with
  | some loc => loc
  | none =>
    match method2 pmPatterns q with
    | some loc => loc
    | none =>
      match method3 q with
      | some loc => loc
      | none =>
        match method4 q with
        | some loc => loc
        | none => ""

/-- `_get_air_quality_category` (category, emoji). -/
def getAirQualityCategory (v : Option Rat) : String × String :=
  match v with
  | none => ("Unknown", "❓")
  | some x =>
    if x ≤ mkRat 30 1 then ("Good", "🟢")
    else if x ≤ mkRat 60 1 then ("Satisfactory", "🟡")
    else if x ≤ mkRat 90 1 then ("Moderate", "🟠")
    else if x ≤ mkRat 120 1 then ("Poor", "🔴")
    else if x ≤ mkRat 250 1 then ("Very Poor", "🟣")
    else ("Severe", "🟤")

/-- Python `f"{x:.1f}"` (rounding to one decimal; ties are immaterial
to every property proved here). -/
def fmt1 (x : Rat) : String :=
  Json.renderNum (mkRat (Int.fdiv (x.num * 20 + Int.ofNat x.den) (2 * Int.ofNat x.den)) 10) 1

/-- Python `str.title()` as applied to administrative levels:
capitalize each space-separated word, lower-casing the rest. -/
def titleWord (w : String) : String :=
  match w.toList with
  | [] => ""
  | c :: cs => String.mk (Py.charUpper c :: cs.map Py.charLower)

def pyTitle (s : String) : String :=
  Py.joinSep " " ((Py.splitOn s " ").map titleWord)

/-- `_format_pm_response`. -/
def formatPMResponse (pm : PMResult) (loc : Location) : String :=
  let pmValue := pm.pm25_value
  let (category, emoji) := getAirQualityCategory pmValue
  let pmText := match pmValue with
    | none => "N/A"
    | some x => fmt1 x
  emoji ++ " **PM2.5 in " ++ loc.name ++ "**\n\n" ++
  "📊 **Current Level:** " ++ pmText ++ " µg/m³\n" ++
  "📈 **Air Quality:** " ++ category ++ "\n" ++
  (if loc.level ≠ "" then
    "📍 **Location Type:** " ++ pyTitle (Py.replace loc.level "_" " ") ++ "\n"
   else "") ++
  (match pm.timestamp with
   | some ts => if ts ≠ "" then "🕐 **Last Updated:** " ++ ts ++ "\n" else ""
   | none => "") ++
  (match pm.station_count with
   | some n => if n ≠ 0 then
      "📡 **Data Sources:** " ++ Py.natRepr n ++ " monitoring stations\n"
     else ""
   | none => "") ++
  (match pmValue with
   | some x =>
     if x > mkRat 90 1 then
       "\n⚠️ **Health Advisory:**\n" ++
       (if x > mkRat 250 1 then
         "- Avoid all outdoor activities\n- Keep windows closed\n- Use air purifiers if available"
        else if x > mkRat 120 1 then
         "- Limit prolonged outdoor activities\n- Sensitive groups should stay indoors"
        else
         "- Sensitive individuals should limit outdoor exposure")
     else ""
   | none => "")

/-- `PMQueryWorkflow.process_query`.  The two collaborators are
parameters; the in-place mutations of the Python `state` dict become
functional updates along the same branch structure. -/
def processQuery (locationAgent : String → LocationResolver.LocResult)
    (pmAgent : PMReq → PMResult) (query : String) : PMQueryState :=
  let state0 : PMQueryState :=
    ⟨query, "", [], false, none, none, "", none, false⟩
  let locationTerm := extractLocationFromQuery query
  let state1 := { state0 with location_search_term := locationTerm }
  if locationTerm = "" then
    { state1 with
      error := some "Could not identify a location in your query. Please specify a location."
      response := "❌ I couldn't identify a location in your query. Please try asking with a specific location, like 'What is PM2.5 in Delhi?'" }
  else
    let locationResult := locationAgent locationTerm
    if !locationResult.success then
      { state1 with
        error := some ((locationResult.error).getD "Location search failed")
        response := "❌ Could not find location '" ++ locationTerm ++
          "'. Please check the spelling and try again." }
    else
      let state2 := { state1 with
        locations := locationResult.locations
        needs_disambiguation := locationResult.needs_disambiguation }
      if state2.needs_disambiguation ∧ state2.locations.length > 1 then
        { state2 with waiting_for_user := true }
      else
        match state2.locations with
        | [] =>
          { state2 with
            error := some "No location found"
            response := "❌ Location '" ++ locationTerm ++
              "' not found in our database." }
        | loc :: _ =>
          let state3 := { state2 with selected_location := some loc }
          let pmResult := pmAgent ⟨loc.code, loc.level, loc.name⟩
          if !pmResult.success then
            { state3 with
              error := some ((pmResult.error).getD "Failed to fetch PM data")
              response := "❌ Could not retrieve PM2.5 data for " ++ loc.name ++
                ". The monitoring station might be offline or data unavailable." }
          else
            { state3 with
              pm_data := some pmResult
              response := formatPMResponse pmResult loc }

/-- `PMQueryWorkflow.continue_with_selection`. -/
def continueWithSelection (pmAgent : PMReq → PMResult)
    (state : PMQueryState) (selectedIdx : Int) : PMQueryState :=
  if state.locations.isEmpty then
    { state with
      error := some "No locations to select from"
      response := "❌ Error: No locations available for selection." }
  else if selectedIdx < 0 ∨ selectedIdx ≥ (state.locations.length : Int) then
    { state with
      error := some ("Invalid selection index: " ++ Py.intRepr selectedIdx)
      response := "❌ Error: Invalid selection. Please choose a number between 1 and " ++
        Py.natRepr state.locations.length ++ "." }
  else
    match state.locations.get? selectedIdx.toNat with
    | none => state  -- unreachable: the bounds were just checked
    | some loc =>
      let state1 := { state with
        selected_location := some loc
        waiting_for_user := false }
      let pmResult := pmAgent ⟨loc.code, loc.level, loc.name⟩
      if !pmResult.success then
        { state1 with
          error := some ((pmResult.error).getD "Failed to fetch PM data")
          response := "❌ Could not retrieve PM2.5 data for " ++ loc.name ++
            ". The monitoring station might be offline or data unavailable." }
      else
        { state1 with
          pm_data := some pmResult
          response := formatPMResponse pmResult loc }

/-- A state is terminal once `response` or `error` is set (§3 of the
specification). -/
def isTerminal (s : PMQueryState) : Prop :=
  s.response ≠ "" ∨ s.error ≠ none

/-- The specification's "exactly one of `response`/`error` is
non-empty". -/
def exactlyOneSet (s : PMQueryState) : Prop :=
  (s.response ≠ "" ∧ s.error = none) ∨ (s.response = "" ∧ s.error ≠ none)

end PMQueryWorkflow

/-! ## Concrete instances used by the witnesses and counterexamples -/

open HybridParser in
/-- A sequence of `_log_comparison` calls, as applied to the recorder
state: each call supplies a timestamp, the query, and both parsers'
results. -/
def runComparisonCalls
    (calls : List (String × String × ParsedQuery × ParsedQuery))
    (st : HybridParser.LogState) : HybridParser.LogState :=
  calls.foldl
    (fun s c => HybridParser.logComparison c.1 c.2.1 c.2.2.1 c.2.2.2 s) st

def dummyPQ : ParsedQuery := ⟨"unknown", [], 0, ""⟩

/-- A fine-tuned parser that always answers `unknown` at confidence
0.5 — the degenerate external result quantified over in C2. -/
def unknownLLMResult (s : String) : ParsedQuery :=
  ⟨"unknown", [("query", .str s)], mkRat 5 10, s⟩

def unknownLLM : String → Except String ParsedQuery :=
  fun s => .ok (unknownLLMResult s)

/-- The Pattern Parser's result for "pm in delhi" (confidence 0.95). -/
def pmDelhiParsed : ParsedQuery :=
  ⟨"current_reading", [("metric", .str "pm25"), ("location", .str "delhi")],
   mkRat 95 100, "pm in delhi"⟩

/-- The comparison record C8 is evaluated at: the hybrid parser's own
`unknown` result for the query "hi" on both sides. -/
def c8pq : ParsedQuery := ⟨"unknown", [("query", .str "hi")], 0, "hi"⟩

/-- Two database rows for "delhi" that differ in administrative level
(a district and a state), forcing disambiguation. -/
def cexRawDistrict : LocationResolver.RawLoc :=
  { name := some "Delhi", code := some "DL01", level := some "district",
    state_name := some "Delhi" }

def cexRawState : LocationResolver.RawLoc :=
  { name := some "Delhi", code := some "DL02", level := some "state",
    state_name := some "Delhi" }

def cexLocAgent : String → LocationResolver.LocResult :=
  fun q => LocationResolver.run (.ok [cexRawDistrict, cexRawState]) q

def cexPmAgent : PMQueryWorkflow.PMReq → PMQueryWorkflow.PMResult :=
  fun _ => ⟨true, some (mkRat 100 1), none, none, none⟩

/-- A collaborator returning a single Delhi district row, so
`process_query` reaches a terminal success state. -/
def autoLocAgent : String → LocationResolver.LocResult :=
  fun q => LocationResolver.run (.ok [cexRawDistrict]) q

/-- The suspended two-candidate state C1's witness resumes. -/
def suspendedState : PMQueryWorkflow.PMQueryState :=
  PMQueryWorkflow.processQuery cexLocAgent cexPmAgent "What is PM2.5 in Delhi?"

/-- The location-resolution collaborator built from a fixed database
answer, as `process_query` invokes it. -/
def resolverAgent (raws : List LocationResolver.RawLoc) :
    String → LocationResolver.LocResult :=
  fun t => LocationResolver.run (.ok raws) t

/-- A duplicate Delhi district row: same name and level as
`cexRawDistrict`, different code. -/
def c7RawDup : LocationResolver.RawLoc :=
  { name := some "Delhi", code := some "DL99", level := some "district",
    state_name := some "Delhi" }

/-! ## Theorems -/

namespace Rq

theorem add_eq (a b : Rat) : add a b = a + b := by
  have ha : ((a.den : Rat)) ≠ 0 := by exact_mod_cast a.den_nz
  have hb : ((b.den : Rat)) ≠ 0 := by exact_mod_cast b.den_nz
  rw [add, Rat.mkRat_eq_div]
  push_cast
  calc ((a.num : Rat) * b.den + b.num * a.den) / (a.den * b.den)
      = (a.num : Rat) / a.den + (b.num : Rat) / b.den := by
        rw [div_add_div _ _ ha hb]; ring
    _ = a + b := by rw [Rat.num_div_den, Rat.num_div_den]

theorem sub_eq (a b : Rat) : sub a b = a - b := by
  have ha : ((a.den : Rat)) ≠ 0 := by exact_mod_cast a.den_nz
  have hb : ((b.den : Rat)) ≠ 0 := by exact_mod_cast b.den_nz
  rw [sub, Rat.mkRat_eq_div]
  push_cast
  calc ((a.num : Rat) * b.den - b.num * a.den) / (a.den * b.den)
      = (a.num : Rat) / a.den - (b.num : Rat) / b.den := by
        rw [div_sub_div _ _ ha hb]; ring
    _ = a - b := by rw [Rat.num_div_den, Rat.num_div_den]

theorem habs_eq (a : Rat) : habs a = |a| := by
  rw [habs]
  by_cases h : a < 0
  · rw [if_pos h, abs_of_neg h]
    rw [show -a.num = (-a).num from (Rat.neg_num a).symm,
        show a.den = (-a).den from (Rat.neg_den a).symm, Rat.mkRat_self]
  · rw [if_neg h, abs_of_nonneg (not_lt.mp h)]

theorem lit85 : mkRat 85 100 = (0.85 : Rat) := by
  rw [Rat.mkRat_eq_div]; norm_num

theorem lit8 : mkRat 8 10 = (0.8 : Rat) := by
  rw [Rat.mkRat_eq_div]; norm_num

theorem lit9 : mkRat 9 10 = (0.9 : Rat) := by
  rw [Rat.mkRat_eq_div]; norm_num

theorem lit95 : mkRat 95 100 = (0.95 : Rat) := by
  rw [Rat.mkRat_eq_div]; norm_num

theorem mul10_eq (a : Rat) : mul10 a = a * 10 := by
  rw [mul10, Rat.mkRat_eq_div]
  push_cast
  rw [show (a.num : Rat) * 10 / a.den = (a.num : Rat) / a.den * 10 from by ring,
      Rat.num_div_den]

end Rq

theorem runComparisonCalls_mem
    (calls : List (String × String × ParsedQuery × ParsedQuery))
    (st : HybridParser.LogState) :
    (runComparisonCalls calls st).mem =
      calls.foldl
        (fun m c => HybridParser.bufferStep m
          (HybridParser.mkComparison c.1 c.2.1 c.2.2.1 c.2.2.2)) st.mem := by
  induction calls generalizing st with
  | nil => rfl
  | cons c rest ih =>
    simp only [runComparisonCalls, List.foldl_cons] at *
    exact ih _

theorem bufferStep_small (l : List Json) (c : Json) (h : l.length < 100) :
    HybridParser.bufferStep l c = l ++ [c] := by
  unfold HybridParser.bufferStep
  rw [if_neg]
  simp only [List.length_append, List.length_singleton, gt_iff_lt, not_lt]
  omega

theorem bufferStep_full (l : List Json) (c : Json) (h : l.length = 100) :
    HybridParser.bufferStep l c = l.drop 1 ++ [c] := by
  unfold HybridParser.bufferStep
  rw [if_pos (by simp only [List.length_append, List.length_singleton, h]; omega)]
  simp only [List.length_append, List.length_singleton, h]
  rw [List.drop_append_of_le_length (by omega)]

theorem foldl_bufferStep_eq (cs : List Json) :
    cs.foldl HybridParser.bufferStep [] = cs.drop (cs.length - 100) := by
  induction cs using List.reverseRecOn with
  | nil => rfl
  | append_singleton cs c ih =>
    rw [List.foldl_append, List.foldl_cons, List.foldl_nil, ih]
    have hdl : (cs.drop (cs.length - 100)).length = cs.length - (cs.length - 100) :=
      List.length_drop _ _
    by_cases h : cs.length < 100
    · rw [show cs.length - 100 = 0 from by omega, List.drop_zero,
         bufferStep_small _ _ (by omega), List.length_append,
         List.length_singleton,
         show cs.length + 1 - 100 = 0 from by omega, List.drop_zero]
    · rw [bufferStep_full _ _ (by omega), List.drop_drop,
         List.length_append, List.length_singleton,
         List.drop_append_of_le_length (by omega),
         show cs.length - 100 + 1 = cs.length + 1 - 100 from by omega]

/-- C9: for every sequence of more than 100 recorded comparisons, the
in-memory buffer ends with exactly the 100 most recent records, in
recording order, and has length exactly 100. -/
theorem comparisonBuffer_keeps_last100
    (calls : List (String × String × ParsedQuery × ParsedQuery))
    (h : calls.length > 100) :
    (runComparisonCalls calls ⟨[], []⟩).mem =
      (calls.map (fun c => HybridParser.mkComparison c.1 c.2.1 c.2.2.1 c.2.2.2)).drop
        (calls.length - 100) ∧
    (runComparisonCalls calls ⟨[], []⟩).mem.length = 100 := by
  have hm : (runComparisonCalls calls ⟨[], []⟩).mem =
      (calls.map (fun c => HybridParser.mkComparison c.1 c.2.1 c.2.2.1 c.2.2.2)).foldl
        HybridParser.bufferStep [] := by
    rw [runComparisonCalls_mem, List.foldl_map]
  rw [hm, foldl_bufferStep_eq, List.length_map]
  refine ⟨rfl, ?_⟩
  rw [List.length_drop, List.length_map]
  omega

/-- Witness for C9 at a concrete run of 101 recorded comparisons. -/
theorem comparisonBuffer_keeps_last100_witness :
    (runComparisonCalls (List.replicate 101 ("t", "q", dummyPQ, dummyPQ)) ⟨[], []⟩).mem =
      ((List.replicate 101 ("t", "q", dummyPQ, dummyPQ)).map
        (fun c => HybridParser.mkComparison c.1 c.2.1 c.2.2.1 c.2.2.2)).drop
        ((List.replicate 101 ("t", "q", dummyPQ, dummyPQ)).length - 100) ∧
    (runComparisonCalls (List.replicate 101 ("t", "q", dummyPQ, dummyPQ)) ⟨[], []⟩).mem.length = 100 :=
  comparisonBuffer_keeps_last100 _ (by simp)

/-- C3: in shadow mode, for every query and every outcome of the
External-Model Parser — any value, or any exception — `parse` returns
exactly the Pattern Parser's result; the external outcome reaches only
the comparison recorder. -/
theorem shadowMode_returns_patternParser_result
    (llm : String → Except String ParsedQuery) (now : String)
    (st : HybridParser.LogState) (q : String) :
    (HybridParser.parse llm now true st q).map Prod.fst = QueryParser.parse q ∧
    (∀ r, QueryParser.parse q = .ok r →
      HybridParser.parse llm now true st q = .ok (r, st) ∨
      ∃ lr, llm q = .ok lr ∧
        HybridParser.parse llm now true st q =
          .ok (r, HybridParser.logComparison now q r lr st)) := by
  constructor
  · unfold HybridParser.parse
    cases hq : QueryParser.parse q with
    | error e => rfl
    | ok r =>
      cases llm q <;> rfl
  · intro r hr
    unfold HybridParser.parse
    rw [hr]
    cases hl : llm q with
    | error e =>
      left
      rfl
    | ok lr =>
      right
      exact ⟨lr, rfl, rfl⟩

/-- Witness for C3: shadow mode at "pm in delhi" against an
External-Model Parser that raises — the Pattern Parser's result comes
back unchanged and the recorder state is untouched. -/
theorem shadowMode_returns_patternParser_result_witness :
    (HybridParser.parse (fun _ => .error "timeout") "t0" true ⟨[], []⟩
        "pm in delhi").map Prod.fst = QueryParser.parse "pm in delhi" ∧
    HybridParser.parse (fun _ => .error "timeout") "t0" true ⟨[], []⟩
        "pm in delhi" = .ok (pmDelhiParsed, ⟨[], []⟩) := by
  have h := shadowMode_returns_patternParser_result
    (fun _ => .error "timeout") "t0" ⟨[], []⟩ "pm in delhi"
  refine ⟨h.1, ?_⟩
  rcases h.2 pmDelhiParsed (by decide) with h1 | ⟨lr, hlr, _⟩
  · exact h1
  · simp at hlr

/-- C2: in production mode, a Pattern-Parser confidence of at least
0.85 returns the Pattern Parser's result unchanged; below 0.85 the
External-Model Parser is awaited and its result returned, whatever it
is. -/
theorem productionMode_confidence_routing
    (llm : String → Except String ParsedQuery) (now : String)
    (st : HybridParser.LogState) (q : String) (r lr : ParsedQuery)
    (hr : QueryParser.parse q = .ok r) (hl : llm q = .ok lr) :
    (r.confidence ≥ 0.85 → HybridParser.parse llm now false st q = .ok (r, st)) ∧
    (r.confidence < 0.85 →
      HybridParser.parse llm now false st q =
        .ok (lr, HybridParser.logComparison now q r lr st)) := by
  unfold HybridParser.parse
  rw [hr, Rq.lit85]
  constructor
  · intro hc
    simp only [bind, Except.bind, if_pos hc]
    simp
  · intro hc
    simp only [bind, Except.bind, if_neg (not_le.mpr hc), hl]
    simp

/-- Witness for C2 at the high-confidence query "pm in delhi". -/
theorem productionMode_confidence_routing_witness :
    HybridParser.parse unknownLLM "t0" false ⟨[], []⟩ "pm in delhi" =
      .ok (pmDelhiParsed, ⟨[], []⟩) := by
  have h := productionMode_confidence_routing unknownLLM "t0" ⟨[], []⟩
    "pm in delhi" pmDelhiParsed (unknownLLMResult "pm in delhi") (by decide) rfl
  exact h.1 (by rw [← Rq.lit85]; decide)

/-- C4 counterexample: on "What is PM2.5 in Delhi?" the Pattern Parser
extracts metric "5" — not "pm25" as claimed — because the first
`current_reading` pattern cannot match "pm2.5" (`\w` excludes the dot)
and the second pattern `(\w+) in ([\w\s]+?)(?:\?|$)` captures only the
"5". -/
theorem pm25Delhi_metric_counterexample :
    (QueryParser.parse "What is PM2.5 in Delhi?").map
      (fun r => entLookup "metric" r.entities) = .ok (some (.str "5")) ∧
    ¬ ((QueryParser.parse "What is PM2.5 in Delhi?").map
      (fun r => entLookup "metric" r.entities) = .ok (some (.str "pm25"))) := by
  constructor <;> decide

/-- C4 amended: the full Pattern-Parser result for
"What is PM2.5 in Delhi?" is intent `current_reading`, entities
`{metric: "5", location: "delhi"}`, confidence 0.95. -/
theorem pm25Delhi_parse_result :
    QueryParser.parse "What is PM2.5 in Delhi?" =
      .ok ⟨"current_reading",
           [("metric", .str "5"), ("location", .str "delhi")],
           0.95, "What is PM2.5 in Delhi?"⟩ := by
  rw [show (0.95 : Rat) = mkRat 95 100 from Rq.lit95.symm]
  decide

/-- C5 counterexample: in production mode, a query the Pattern Parser
answers with confidence 0.95 returns without recording any comparison —
both the in-memory buffer and the durable log stay empty, not
"count before plus one". -/
theorem productionHighPath_records_nothing :
    (HybridParser.parse unknownLLM "t0" false ⟨[], []⟩ "pm in delhi").map
      (fun p => (p.2.mem.length, p.2.file.length)) = .ok (0, 0) := by
  decide

theorem bufferStep_length (l : List Json) (c : Json) :
    (HybridParser.bufferStep l c).length = min (l.length + 1) 100 := by
  unfold HybridParser.bufferStep
  by_cases h : l.length + 1 > 100
  · rw [if_pos (by simp only [List.length_append, List.length_singleton]; omega)]
    simp only [List.length_drop, List.length_append, List.length_singleton]
    omega
  · rw [if_neg (by simp only [List.length_append, List.length_singleton]; omega)]
    simp only [List.length_append, List.length_singleton]
    omega

/-- C5 amended: in production mode a comparison is recorded before
returning only on the low-confidence path — one new durable log write,
and one new buffer entry up to the 100-record cap; the high-confidence
path records nothing. -/
theorem productionMode_records_only_low_path
    (llm : String → Except String ParsedQuery) (now : String)
    (st : HybridParser.LogState) (q : String) (r lr : ParsedQuery)
    (hr : QueryParser.parse q = .ok r) (hl : llm q = .ok lr) :
    (r.confidence ≥ 0.85 →
      HybridParser.parse llm now false st q = .ok (r, st)) ∧
    (r.confidence < 0.85 →
      ∃ st', HybridParser.parse llm now false st q = .ok (lr, st') ∧
        st'.file.length = st.file.length + 1 ∧
        st'.mem.length = min (st.mem.length + 1) 100) := by
  unfold HybridParser.parse
  rw [hr, Rq.lit85]
  constructor
  · intro hc
    simp only [bind, Except.bind, if_pos hc]
    simp
  · intro hc
    simp only [bind, Except.bind, if_neg (not_le.mpr hc), hl]
    refine ⟨HybridParser.logComparison now q r lr st, by simp, ?_, ?_⟩
    · simp [HybridParser.logComparison]
    · simp only [HybridParser.logComparison]
      exact bufferStep_length _ _

/-- Witness for C5's amended low-confidence path at the unmatched query
"zzz" (Pattern-Parser confidence 0). -/
theorem productionMode_records_only_low_path_witness :
    ∃ st', HybridParser.parse unknownLLM "t0" false ⟨[], []⟩ "zzz" =
      .ok (unknownLLMResult "zzz", st') ∧
      st'.file.length = ([] : List String).length + 1 ∧
      st'.mem.length = min (([] : List Json).length + 1) 100 := by
  have h := productionMode_records_only_low_path unknownLLM "t0" ⟨[], []⟩
    "zzz" ⟨"unknown", [("query", .str "zzz")], 0, "zzz"⟩
    (unknownLLMResult "zzz") (by decide) rfl
  exact h.2 (by rw [← Rq.lit85]; decide)

/-- C6: the External-Model Parser never raises to its caller — every
transport failure is converted to
`ParsedQuery(intent="unknown", confidence=0.0, entities={query, error})`,
and the original query is always echoed back. -/
theorem finetuned_parse_never_raises (q : String) (call : Except String String) :
    (FineTunedParser.parse call q).raw_query = q ∧
    (∀ e, call = .error e →
      FineTunedParser.parse call q =
        ⟨.str "unknown", .obj [("query", .str q), ("error", .str e)],
         .num 0 1, q⟩) := by
  constructor
  · cases call with
    | error e => rfl
    | ok resp =>
      cases h : FineTunedParser.extractJson resp <;>
        simp [FineTunedParser.parse, h, FineTunedParser.fallback]
  · intro e he
    subst he
    rfl

/-- Witness for C6 at a concrete transport failure. -/
theorem finetuned_parse_never_raises_witness :
    (FineTunedParser.parse (.error "Connection refused") "hi").raw_query = "hi" ∧
    FineTunedParser.parse (.error "Connection refused") "hi" =
      ⟨.str "unknown",
       .obj [("query", .str "hi"), ("error", .str "Connection refused")],
       .num 0 1, "hi"⟩ := by
  have h := finetuned_parse_never_raises "hi" (.error "Connection refused")
  exact ⟨h.1, h.2 _ rfl⟩

theorem calculateConfidence_cases (q intent : String)
    (ents : List (String × EntVal)) :
    QueryParser.calculateConfidence q intent ents = mkRat 8 10 ∨
    QueryParser.calculateConfidence q intent ents = mkRat 9 10 ∨
    QueryParser.calculateConfidence q intent ents = mkRat 95 100 := by
  simp only [QueryParser.calculateConfidence]
  split
  · exact Or.inr (Or.inr rfl)
  · split
    · exact Or.inr (Or.inl rfl)
    · split
      · exact Or.inr (Or.inl rfl)
      · exact Or.inl rfl

theorem scanTable_confidence (ql raw : String)
    (table : List (String × List (Re.RE × Nat))) (r : ParsedQuery)
    (h : QueryParser.scanTable ql raw table = .ok r) :
    r.confidence = 0 ∨
      ∃ intent ents,
        r.confidence = QueryParser.calculateConfidence ql intent ents := by
  induction table with
  | nil =>
    simp only [QueryParser.scanTable] at h
    cases h
    left; rfl
  | cons p rest ih =>
    obtain ⟨intent, pats⟩ := p
    rw [QueryParser.scanTable] at h
    cases hs : QueryParser.scanPats ql pats with
    | none =>
      rw [hs] at h
      exact ih h
    | some groups =>
      rw [hs] at h
      dsimp only at h
      cases he : QueryParser.extractEntities intent groups ql with
      | error e =>
        rw [he] at h
        simp [bind, Except.bind] at h
      | ok ents =>
        rw [he] at h
        simp only [bind, Except.bind] at h
        cases h
        right
        exact ⟨intent, ents, rfl⟩

/-- C10: whatever the Pattern Parser returns, its confidence is one of
0.0 (no rule matched), 0.8 (base match), 0.9 or 0.95, hence lies in
[0, 1]; and it clears the 0.85 production threshold exactly when it is
neither 0.0 nor 0.8. -/
theorem patternParser_confidence_range (q : String) (r : ParsedQuery)
    (h : QueryParser.parse q = .ok r) :
    (r.confidence = 0 ∨ r.confidence = 0.8 ∨ r.confidence = 0.9 ∨
      r.confidence = 0.95) ∧
    (0 ≤ r.confidence ∧ r.confidence ≤ 1) ∧
    (r.confidence < 0.85 ↔ (r.confidence = 0 ∨ r.confidence = 0.8)) := by
  have h' : QueryParser.scanTable (Py.strip (Py.lower q)) q QueryParser.patterns
      = .ok r := h
  have hc := scanTable_confidence _ _ _ _ h'
  have hd : r.confidence = 0 ∨ r.confidence = 0.8 ∨ r.confidence = 0.9 ∨
      r.confidence = 0.95 := by
    rcases hc with h0 | ⟨intent, ents, hce⟩
    · exact Or.inl h0
    · rcases calculateConfidence_cases (Py.strip (Py.lower q)) intent ents
        with h8 | h9 | h95
      · exact Or.inr (Or.inl (by rw [hce, h8, Rq.lit8]))
      · exact Or.inr (Or.inr (Or.inl (by rw [hce, h9, Rq.lit9])))
      · exact Or.inr (Or.inr (Or.inr (by rw [hce, h95, Rq.lit95])))
  refine ⟨hd, ?_, ?_, ?_⟩
  · rcases hd with h0 | h8 | h9 | h95 <;>
      first
        | (rw [h0]; norm_num)
        | (rw [h8]; norm_num)
        | (rw [h9]; norm_num)
        | (rw [h95]; norm_num)
  · intro hlt
    rcases hd with h0 | h8 | h9 | h95
    · exact Or.inl h0
    · exact Or.inr h8
    · rw [h9] at hlt; norm_num at hlt
    · rw [h95] at hlt; norm_num at hlt
  · intro hor
    rcases hor with h0 | h8
    · rw [h0]; norm_num
    · rw [h8]; norm_num

/-- Witness for C10 at the unmatched query "zzz" (confidence 0.0). -/
theorem patternParser_confidence_range_witness :
    QueryParser.parse "zzz" =
      .ok ⟨"unknown", [("query", .str "zzz")], 0, "zzz"⟩ ∧
    (((0 : Rat) = 0 ∨ (0 : Rat) = 0.8 ∨ (0 : Rat) = 0.9 ∨ (0 : Rat) = 0.95) ∧
     (0 ≤ (0 : Rat) ∧ (0 : Rat) ≤ 1) ∧
     ((0 : Rat) < 0.85 ↔ ((0 : Rat) = 0 ∨ (0 : Rat) = 0.8))) := by
  have h := patternParser_confidence_range "zzz"
    ⟨"unknown", [("query", .str "zzz")], 0, "zzz"⟩ (by decide)
  exact ⟨by decide, h⟩

/-- C8 (the code contradicts the round-trip): `_log_comparison` writes
the record to the durable log with `json.dumps(..., indent=2)` — one
multi-line entry — while `load_comparisons` parses the file line by
line, so `json.loads` fails on every line and the analyzer recovers
nothing, even with a cutoff that includes the record's timestamp. -/
theorem comparisonLog_roundtrip_fails :
    (HybridParser.logComparison "2025-01-13T14:30:00" "hi" c8pq c8pq
      ⟨[], []⟩).mem =
      [HybridParser.mkComparison "2025-01-13T14:30:00" "hi" c8pq c8pq] ∧
    (HybridParser.logComparison "2025-01-13T14:30:00" "hi" c8pq c8pq
      ⟨[], []⟩).file.length = 1 ∧
    ParseComparisonAnalyzer.loadComparisons
      (ParseComparisonAnalyzer.fileLines
        (HybridParser.logComparison "2025-01-13T14:30:00" "hi" c8pq c8pq
          ⟨[], []⟩).file)
      (fun _ => true) = .ok [] := by
  exact ⟨rfl, rfl, by rfl⟩

theorem str_len_zero (s : String) (h : s.length = 0) : s = "" := by
  cases s with
  | mk data =>
    cases data with
    | nil => rfl
    | cons c cs => simp [String.length] at h

theorem str_append_ne_left (a b : String) (h : a ≠ "") : a ++ b ≠ "" := by
  intro hc
  apply h
  have hl := congrArg String.length hc
  rw [String.length_append] at hl
  have hz : ("" : String).length = 0 := rfl
  exact str_len_zero a (by omega)

theorem str_append_ne_right (a b : String) (h : b ≠ "") : a ++ b ≠ "" := by
  intro hc
  apply h
  have hl := congrArg String.length hc
  rw [String.length_append] at hl
  have hz : ("" : String).length = 0 := rfl
  exact str_len_zero b (by omega)

theorem emoji_ne_empty (v : Option Rat) :
    (PMQueryWorkflow.getAirQualityCategory v).2 ≠ "" := by
  unfold PMQueryWorkflow.getAirQualityCategory
  rcases v with _ | x
  · decide
  · dsimp only
    split_ifs <;> decide

theorem formatPMResponse_ne_empty (pm : PMQueryWorkflow.PMResult)
    (loc : LocationResolver.Location) :
    PMQueryWorkflow.formatPMResponse pm loc ≠ "" := by
  unfold PMQueryWorkflow.formatPMResponse
  dsimp only
  iterate 12 apply str_append_ne_left
  exact str_append_ne_right _ _ (by decide)

/-- Every state `process_query` returns is either terminal with a
non-empty response and `waiting_for_user` cleared, or suspended with an
empty response, no error, and `waiting_for_user` set. -/
theorem processQuery_states (la : String → LocationResolver.LocResult)
    (pa : PMQueryWorkflow.PMReq → PMQueryWorkflow.PMResult) (q : String) :
    ((PMQueryWorkflow.processQuery la pa q).response ≠ "" ∧
     (PMQueryWorkflow.processQuery la pa q).waiting_for_user = false) ∨
    ((PMQueryWorkflow.processQuery la pa q).response = "" ∧
     (PMQueryWorkflow.processQuery la pa q).error = none ∧
     (PMQueryWorkflow.processQuery la pa q).waiting_for_user = true) := by
  unfold PMQueryWorkflow.processQuery
  dsimp only
  split
  · exact Or.inl ⟨by dsimp only; decide, rfl⟩
  · split
    · exact Or.inl ⟨str_append_ne_left _ _ (str_append_ne_left _ _ (by decide)), rfl⟩
    · split
      · exact Or.inr ⟨rfl, rfl, rfl⟩
      · split
        · exact Or.inl ⟨str_append_ne_left _ _ (str_append_ne_left _ _ (by decide)), rfl⟩
        · split
          · exact Or.inl ⟨str_append_ne_left _ _ (str_append_ne_left _ _ (by decide)), rfl⟩
          · exact Or.inl ⟨formatPMResponse_ne_empty _ _, rfl⟩

/-- Every state `continue_with_selection` returns has a non-empty
response, and a valid selection always clears `waiting_for_user`. -/
theorem continueWithSelection_states
    (pa : PMQueryWorkflow.PMReq → PMQueryWorkflow.PMResult)
    (s : PMQueryWorkflow.PMQueryState) (i : Int) :
    ((PMQueryWorkflow.continueWithSelection pa s i).response ≠ "") ∧
    (0 ≤ i → i < (s.locations.length : Int) →
      (PMQueryWorkflow.continueWithSelection pa s i).waiting_for_user = false) := by
  unfold PMQueryWorkflow.continueWithSelection
  split
  · next hempty =>
    refine ⟨by dsimp only; decide, fun h0 hlen => ?_⟩
    rw [List.isEmpty_iff] at hempty
    rw [hempty] at hlen
    simp at hlen
    omega
  · split
    · next hinv =>
      refine ⟨str_append_ne_left _ _ (str_append_ne_left _ _ (by decide)),
        fun h0 hlen => ?_⟩
      rcases hinv with hneg | hge
      · omega
      · omega
    · next hok =>
      split
      · next hget =>
        exfalso
        rw [List.get?_eq_none] at hget
        push_neg at hok
        omega
      · next loc hget =>
        dsimp only
        split
        · exact ⟨str_append_ne_left _ _ (str_append_ne_left _ _ (by decide)),
            fun _ _ => rfl⟩
        · exact ⟨formatPMResponse_ne_empty _ _, fun _ _ => rfl⟩

/-- C1 counterexample: resume the suspended disambiguation state for
"What is PM2.5 in Delhi?" with the out-of-range index 5.  The returned
state is terminal with BOTH `response` and `error` non-empty — not
"exactly one" — and `waiting_for_user` is still true, because the
invalid-selection branch never clears it. -/
theorem boundary_terminal_counterexample :
    (let s1 := PMQueryWorkflow.continueWithSelection cexPmAgent
      (PMQueryWorkflow.processQuery cexLocAgent cexPmAgent
        "What is PM2.5 in Delhi?") 5
     PMQueryWorkflow.isTerminal s1 ∧ ¬ PMQueryWorkflow.exactlyOneSet s1 ∧
       s1.waiting_for_user = true) := by
  dsimp only
  unfold PMQueryWorkflow.isTerminal PMQueryWorkflow.exactlyOneSet
  decide

/-- C1 amended: every terminal state the boundary operations return has
a non-empty `response` (`error` is additionally set on failure paths,
so both can be non-empty at once); `process_query` always returns
terminal states with `waiting_for_user` cleared, and
`continue_with_selection` clears `waiting_for_user` whenever the
selection index is valid. -/
theorem boundary_terminal_states (la : String → LocationResolver.LocResult)
    (pa : PMQueryWorkflow.PMReq → PMQueryWorkflow.PMResult) (q : String)
    (s : PMQueryWorkflow.PMQueryState) (i : Int) :
    (PMQueryWorkflow.isTerminal (PMQueryWorkflow.processQuery la pa q) →
      (PMQueryWorkflow.processQuery la pa q).response ≠ "" ∧
      (PMQueryWorkflow.processQuery la pa q).waiting_for_user = false) ∧
    ((PMQueryWorkflow.continueWithSelection pa s i).response ≠ "") ∧
    (0 ≤ i → i < (s.locations.length : Int) →
      (PMQueryWorkflow.continueWithSelection pa s i).waiting_for_user = false) := by
  refine ⟨?_, (continueWithSelection_states pa s i).1,
    (continueWithSelection_states pa s i).2⟩
  intro ht
  rcases processQuery_states la pa q with ⟨h1, h2⟩ | ⟨h1, h2, h3⟩
  · exact ⟨h1, h2⟩
  · exfalso
    rcases ht with hr | he
    · exact hr h1
    · exact he h2

/-- Witness for C1's amended statement: a terminal `process_query` run
and a valid resumption of a suspended state. -/
theorem boundary_terminal_states_witness :
    ((PMQueryWorkflow.processQuery autoLocAgent cexPmAgent "pm near delhi").response ≠ "" ∧
     (PMQueryWorkflow.processQuery autoLocAgent cexPmAgent "pm near delhi").waiting_for_user = false) ∧
    ((PMQueryWorkflow.continueWithSelection cexPmAgent suspendedState 0).response ≠ "") ∧
    ((PMQueryWorkflow.continueWithSelection cexPmAgent suspendedState 0).waiting_for_user = false) := by
  have h := boundary_terminal_states autoLocAgent cexPmAgent "pm near delhi"
    suspendedState 0
  exact ⟨h.1 (by left; decide), h.2.1, h.2.2 (by decide) (by decide)⟩

theorem run_of_multi (raws : List LocationResolver.RawLoc) (qt : String)
    (h : 1 < (LocationResolver.run (.ok raws) qt).locations.length) :
    LocationResolver.run (.ok raws) qt =
      ⟨true, raws.map LocationResolver.formatLocation,
       if (LocationResolver.uniquePairs
            (raws.map LocationResolver.formatLocation)).length = 1
         then false else true,
       none⟩ := by
  unfold LocationResolver.run at h ⊢
  dsimp only at h ⊢
  by_cases hq0 : Py.strip qt = ""
  · rw [if_pos hq0] at h
    simp at h
  · rw [if_neg hq0] at h ⊢
    by_cases hemp : raws.isEmpty
    · rw [if_pos hemp] at h
      simp at h
    · rw [if_neg hemp] at h ⊢
      dsimp only at h ⊢
      have h1 : decide ((raws.map LocationResolver.formatLocation).length > 1) = true :=
        decide_eq_true h
      simp only [h1, if_true]

/-- C7: with more than one candidate from the location-resolution
collaborator, a single distinct (name, level) combination suppresses
disambiguation and `process_query` auto-selects the first candidate and
proceeds; two or more distinct combinations force disambiguation and
`process_query` suspends with `waiting_for_user` set. -/
theorem disambiguation_collapse (raws : List LocationResolver.RawLoc)
    (pa : PMQueryWorkflow.PMReq → PMQueryWorkflow.PMResult) (q : String)
    (hq : PMQueryWorkflow.extractLocationFromQuery q ≠ "")
    (hmulti : 1 < (resolverAgent raws
      (PMQueryWorkflow.extractLocationFromQuery q)).locations.length) :
    ((LocationResolver.uniquePairs (resolverAgent raws
        (PMQueryWorkflow.extractLocationFromQuery q)).locations).length = 1 →
      (resolverAgent raws
        (PMQueryWorkflow.extractLocationFromQuery q)).needs_disambiguation = false ∧
      (PMQueryWorkflow.processQuery (resolverAgent raws) pa q).selected_location =
        (resolverAgent raws
          (PMQueryWorkflow.extractLocationFromQuery q)).locations.head? ∧
      (PMQueryWorkflow.processQuery (resolverAgent raws) pa q).waiting_for_user = false) ∧
    ((LocationResolver.uniquePairs (resolverAgent raws
        (PMQueryWorkflow.extractLocationFromQuery q)).locations).length ≠ 1 →
      (resolverAgent raws
        (PMQueryWorkflow.extractLocationFromQuery q)).needs_disambiguation = true ∧
      (PMQueryWorkflow.processQuery (resolverAgent raws) pa q).waiting_for_user = true ∧
      (PMQueryWorkflow.processQuery (resolverAgent raws) pa q).response = "" ∧
      (PMQueryWorkflow.processQuery (resolverAgent raws) pa q).error = none) := by
  have hrun : resolverAgent raws (PMQueryWorkflow.extractLocationFromQuery q) =
      ⟨true, raws.map LocationResolver.formatLocation,
       if (LocationResolver.uniquePairs
            (raws.map LocationResolver.formatLocation)).length = 1
         then false else true,
       none⟩ :=
    run_of_multi raws _ hmulti
  have hmulti' : 1 < (raws.map LocationResolver.formatLocation).length := by
    rw [hrun] at hmulti
    exact hmulti
  obtain ⟨l0, rest, hcons⟩ : ∃ l0 rest,
      raws.map LocationResolver.formatLocation = l0 :: rest := by
    cases hx : raws.map LocationResolver.formatLocation with
    | nil => rw [hx] at hmulti'; simp at hmulti'
    | cons a t => exact ⟨a, t, rfl⟩
  constructor
  · intro hp
    rw [hrun] at hp
    dsimp only at hp
    have hneeds : (resolverAgent raws
        (PMQueryWorkflow.extractLocationFromQuery q)).needs_disambiguation = false := by
      rw [hrun]
      dsimp only
      rw [if_pos hp]
    refine ⟨hneeds, ?_⟩
    unfold PMQueryWorkflow.processQuery
    dsimp only
    rw [if_neg hq, hrun]
    dsimp only
    rw [if_pos hp]
    rw [if_neg (by simp)]
    rw [if_neg (by simp)]
    rw [hcons]
    dsimp only
    split
    · exact ⟨rfl, rfl⟩
    · exact ⟨rfl, rfl⟩
  · intro hp
    rw [hrun] at hp
    dsimp only at hp
    have hneeds : (resolverAgent raws
        (PMQueryWorkflow.extractLocationFromQuery q)).needs_disambiguation = true := by
      rw [hrun]
      dsimp only
      rw [if_neg hp]
    refine ⟨hneeds, ?_⟩
    unfold PMQueryWorkflow.processQuery
    dsimp only
    rw [if_neg hq, hrun]
    dsimp only
    rw [if_neg hp]
    rw [if_neg (by simp)]
    rw [if_pos ⟨rfl, hmulti'⟩]
    exact ⟨rfl, rfl, rfl⟩

/-- Witness for C7's collapse branch: two rows with the same
(name, level) are auto-selected without disambiguation. -/
theorem disambiguation_collapse_witness :
    (resolverAgent [cexRawDistrict, c7RawDup]
      (PMQueryWorkflow.extractLocationFromQuery "pm near delhi")).needs_disambiguation = false ∧
    (PMQueryWorkflow.processQuery (resolverAgent [cexRawDistrict, c7RawDup])
      cexPmAgent "pm near delhi").selected_location =
      (resolverAgent [cexRawDistrict, c7RawDup]
        (PMQueryWorkflow.extractLocationFromQuery "pm near delhi")).locations.head? ∧
    (PMQueryWorkflow.processQuery (resolverAgent [cexRawDistrict, c7RawDup])
      cexPmAgent "pm near delhi").waiting_for_user = false := by
  exact (disambiguation_collapse [cexRawDistrict, c7RawDup] cexPmAgent
    "pm near delhi" (by decide) (by decide)).1 (by decide)

end AqiSpec
